import Mathlib

/-!
# penny-vault/edgar: `financials.ParseXBRL`

A shallow embedding of the fact-extraction routine of `financials/parse.go`
(the two loops over the decoded facts and the derived-metrics tail) together
with the `Statement` schema of `financials/financials.go`.

The XBRL decoder (`github.com/polygon-io/xbrl-parser`) is an external library.
Its `Fact`, `Context` and `Period` records are modelled by the fields that
`ParseXBRL` reads, `float64` is an arbitrary carrier `F` with the operations
that `ParseXBRL` applies to it, and `Fact.NumericValue` is a parameter.
-/

set_option autoImplicit false
set_option linter.unusedSectionVars false

namespace Edgar

/-! ## Decoder-side data -/

/-- The `Period` of a context: `Instant` is a `*string`, nil for a duration. -/
structure Period where
  Instant : Option String
  deriving DecidableEq, Repr

/-- A decoded `xbrl.Context`; only `Period.Instant` is read by `ParseXBRL`. -/
structure Context where
  Period : Period
  deriving DecidableEq, Repr

/-- The zero value of `Context`, which a Go map read returns for an absent key. -/
def Context.zero : Context := ⟨⟨none⟩⟩

/-- A decoded `xbrl.Fact`: `Local` is `XMLName.Local`, `ValueStr` the string
`*fact.ValueStr` of the character data, and `IsValid` the result of the decoder's
validity test `fact.IsValid()`. -/
structure Fact where
  Local : String
  ContextRef : String
  ValueStr : String
  IsValid : Bool
  deriving DecidableEq, Repr

/-- The decoded document `processed`: the ordered facts and the context map
(an association list read with Go map semantics, see `contextOf`). -/
structure XBRL where
  Facts : List Fact
  ContextsByID : List (String × Context)
  deriving Repr

/-- The read `processed.ContextsByID[ref]`: the zero `Context` for an absent key. -/
def contextOf (processed : XBRL) (ref : String) : Context :=
  (processed.ContextsByID.lookup ref).getD Context.zero

/-- The arithmetic that `ParseXBRL` uses on `float64`: the literal `0`, `+`, `-`
and the comparison `== 0`, of which only `0 == 0` is assumed. -/
class Float64 (F : Type) extends Zero F, Add F, Sub F, BEq F where
  zero_beq_zero : ((0 : F) == 0) = true

/-! ## The statement schema (`financials.go`) -/

/-- A `time.Time`, as a tick count; the zero time is `Time.zero`. -/
structure Time where
  ticks : Nat
  deriving DecidableEq, Repr

/-- The zero value of `time.Time`. -/
def Time.zero : Time := ⟨0⟩

/-- The `CompanyProfile` record. -/
structure CompanyProfile where
  CIK : String
  CUSIPs : List String
  PrimaryTicker : String
  PrimaryExchange : String
  FIGI : String
  CompositeFIGI : String
  ShareClassFIGI : String
  Name : String
  deriving DecidableEq, Repr

/-- The zero value of `CompanyProfile`. -/
def CompanyProfile.zero : CompanyProfile :=
  { CIK := ""
    CUSIPs := []
    PrimaryTicker := ""
    PrimaryExchange := ""
    FIGI := ""
    CompositeFIGI := ""
    ShareClassFIGI := ""
    Name := "" }

/-- The `IncomeStatement` record. -/
structure IncomeStatement (F : Type) where
  Revenue : F
  CostOfRevenue : F
  SellingAndGeneralAdminExp : F
  ResearchAndDevelExp : F
  OPEX : F
  InterestExp : F
  TaxExp : F
  NetIncomeDiscontinuedOperations : F
  ConsolidatedIncome : F
  NetIncomeNCI : F
  PreferredDividend : F
  NetIncomeCommonStock : F
  EPS : F
  EPSDiluted : F
  SharesWeightedAvg : F
  SharesWeightedAvgDiluted : F

/-- The zero value of `IncomeStatement`. -/
def IncomeStatement.zero (F : Type) [Zero F] : IncomeStatement F :=
  { Revenue := 0
    CostOfRevenue := 0
    SellingAndGeneralAdminExp := 0
    ResearchAndDevelExp := 0
    OPEX := 0
    InterestExp := 0
    TaxExp := 0
    NetIncomeDiscontinuedOperations := 0
    ConsolidatedIncome := 0
    NetIncomeNCI := 0
    PreferredDividend := 0
    NetIncomeCommonStock := 0
    EPS := 0
    EPSDiluted := 0
    SharesWeightedAvg := 0
    SharesWeightedAvgDiluted := 0 }

/-- The `BalanceSheet` record. The last three fields are the ones `parse.go`
assigns at lines 134, 143 and 152 and sums at lines 168-170. -/
structure BalanceSheet (F : Type) where
  CashAndEquiv : F
  TotalInvestments : F
  CurrentInvestments : F
  NonCurrentInvestments : F
  TotalAssets : F
  CurrentAssets : F
  NonCurrentAssets : F
  TotalLiabilities : F
  CurrentLiabilities : F
  NonCurrentLiabilities : F
  TotalDebt : F
  CurrentDebt : F
  NonCurrentDebt : F
  WorkingCapital : F
  DeferredRevenue : F
  TotalDeposits : F
  NetPropertyPlantAndEquip : F
  InventoryShortTerm : F
  TaxAssets : F
  TaxLiabilities : F
  CurrentLoansReceivable : F
  ReceivablesFromBrokers : F
  ReceivablesFromCustomers : F
  ReceivablesFromOther : F
  TotalReceivables : F
  TotalPayables : F
  Intangibles : F
  Equity : F
  RetainedEarnings : F
  AccumulatedOtherComprehensiveIncome : F
  FinancialInstrumentsOwnedAtFairValue : F
  SegregatedCash : F
  SecuritiesReceivedAsCollateral : F

/-- The zero value of `BalanceSheet`. -/
def BalanceSheet.zero (F : Type) [Zero F] : BalanceSheet F :=
  { CashAndEquiv := 0
    TotalInvestments := 0
    CurrentInvestments := 0
    NonCurrentInvestments := 0
    TotalAssets := 0
    CurrentAssets := 0
    NonCurrentAssets := 0
    TotalLiabilities := 0
    CurrentLiabilities := 0
    NonCurrentLiabilities := 0
    TotalDebt := 0
    CurrentDebt := 0
    NonCurrentDebt := 0
    WorkingCapital := 0
    DeferredRevenue := 0
    TotalDeposits := 0
    NetPropertyPlantAndEquip := 0
    InventoryShortTerm := 0
    TaxAssets := 0
    TaxLiabilities := 0
    CurrentLoansReceivable := 0
    ReceivablesFromBrokers := 0
    ReceivablesFromCustomers := 0
    ReceivablesFromOther := 0
    TotalReceivables := 0
    TotalPayables := 0
    Intangibles := 0
    Equity := 0
    RetainedEarnings := 0
    AccumulatedOtherComprehensiveIncome := 0
    FinancialInstrumentsOwnedAtFairValue := 0
    SegregatedCash := 0
    SecuritiesReceivedAsCollateral := 0 }

/-- The `CashFlow` record. -/
structure CashFlow (F : Type) where
  CAPEX : F
  NetBusinessAcqDivestures : F
  NetInvestmentAcqDivestures : F
  FreeCashFlowPerShare : F
  NetCashFlowFromFinancing : F
  TotalIssuanceRepaymentDebt : F
  TotalIssuanceRepaymentEquity : F
  CommonDividend : F
  NetCashFlowFromInvestments : F
  NetCashFlowFromOperations : F
  EffectOfForeignExchangeRateOnCash : F
  NetCashFlow : F
  StockBasedCompensation : F
  DepreciationAmortization : F

/-- The zero value of `CashFlow`. -/
def CashFlow.zero (F : Type) [Zero F] : CashFlow F :=
  { CAPEX := 0
    NetBusinessAcqDivestures := 0
    NetInvestmentAcqDivestures := 0
    FreeCashFlowPerShare := 0
    NetCashFlowFromFinancing := 0
    TotalIssuanceRepaymentDebt := 0
    TotalIssuanceRepaymentEquity := 0
    CommonDividend := 0
    NetCashFlowFromInvestments := 0
    NetCashFlowFromOperations := 0
    EffectOfForeignExchangeRateOnCash := 0
    NetCashFlow := 0
    StockBasedCompensation := 0
    DepreciationAmortization := 0 }

/-- The `Statement` record. -/
structure Statement (F : Type) where
  FilingDate : Time
  CalendarDate : Time
  ProcessingDate : Time
  FormType : String
  CompanyProfile : CompanyProfile
  IncomeStatement : IncomeStatement F
  BalanceSheet : BalanceSheet F
  CashFlow : CashFlow F

/-- The literal `&Statement{ProcessingDate: now}` (parse.go:29-31). -/
def Statement.init (F : Type) [Zero F] (now : Time) : Statement F :=
  { FilingDate := Time.zero
    CalendarDate := Time.zero
    ProcessingDate := now
    FormType := ""
    CompanyProfile := CompanyProfile.zero
    IncomeStatement := IncomeStatement.zero F
    BalanceSheet := BalanceSheet.zero F
    CashFlow := CashFlow.zero F }

/-! ## Results -/

/-- What a call of `ParseXBRL` does: return `(statement, nil)`, return
`(nil, err)`, or stop in a run-time panic (nil pointer dereference). -/
inductive Outcome (α : Type) where
  | ok (statement : α)
  | error (err : String)
  | panic

/-- Sequencing of outcomes: the first error or panic ends the run. -/
def Outcome.andThen {α β : Type} (o : Outcome α) (k : α → Outcome β) : Outcome β :=
  match o with
  | .ok a => k a
  | .error e => .error e
  | .panic => .panic

/-! ## `ParseXBRL` (`parse.go`) -/

/-- The test `strings.Contains(symbol, " ")`. -/
def containsSpace (symbol : String) : Bool :=
  symbol.data.contains ' '

/-- The first loop (parse.go:46-51): every valid `DocumentPeriodEndDate` fact
overwrites `endDate`. -/
def resolveEndDate (facts : List Fact) (endDate : String) : String :=
  match facts with
  | [] => endDate
  | fact :: rest =>
    if fact.IsValid = true ∧ fact.Local = "DocumentPeriodEndDate" then
      resolveEndDate rest fact.ValueStr
    else
      resolveEndDate rest endDate

section Mapper

variable {F : Type} [Float64 F] (NumericValue : Fact → Except String F)

/-- The body shared by the ten balance-sheet cases (parse.go:69-76 and its nine
copies): read the fact's context, dereference `Period.Instant` (a panic when it
is nil), and when it equals `endDate` store `fact.NumericValue()` with `assign`,
returning the error when there is one. -/
def assignNumeric (processed : XBRL) (endDate : String) (fact : Fact)
    (statement : Statement F) (assign : F → Statement F) : Outcome (Statement F) :=
  match (contextOf processed fact.ContextRef).Period.Instant with
  | none => .panic
  | some instant =>
    if instant = endDate then
      match NumericValue fact with
      | .ok value => .ok (assign value)
      | .error err => .error err
    else
      .ok statement

/-- One iteration of the second loop (parse.go:55-159). -/
def mapFact (processed : XBRL) (endDate : String) (statement : Statement F) (fact : Fact) :
    Outcome (Statement F) :=
  if fact.IsValid then
    if fact.Local = "EntityRegistrantName" then
      .ok { statement with
        CompanyProfile := { statement.CompanyProfile with Name := fact.ValueStr } }
    else if fact.Local = "SecurityExchangeName" then
      .ok { statement with
        CompanyProfile := { statement.CompanyProfile with PrimaryExchange := fact.ValueStr } }
    else if fact.Local = "TradingSymbol" then
      if containsSpace fact.ValueStr = false ∧ statement.CompanyProfile.PrimaryTicker = "" then
        .ok { statement with
          CompanyProfile := { statement.CompanyProfile with PrimaryTicker := fact.ValueStr } }
      else
        .ok statement
    else if fact.Local = "DocumentType" then
      .ok { statement with FormType := fact.ValueStr }
    else if fact.Local = "Assets" then
      assignNumeric NumericValue processed endDate fact statement fun v =>
        { statement with BalanceSheet := { statement.BalanceSheet with TotalAssets := v } }
    else if fact.Local = "Liabilities" then
      assignNumeric NumericValue processed endDate fact statement fun v =>
        { statement with BalanceSheet := { statement.BalanceSheet with TotalLiabilities := v } }
    else if fact.Local = "CashAndCashEquivalentsAtCarryingValue" then
      assignNumeric NumericValue processed endDate fact statement fun v =>
        { statement with BalanceSheet := { statement.BalanceSheet with CashAndEquiv := v } }
    else if fact.Local = "InvestmentsInAffiliatesSubsidiariesAssociatesAndJointVentures" then
      assignNumeric NumericValue processed endDate fact statement fun v =>
        { statement with
          BalanceSheet := { statement.BalanceSheet with CurrentLoansReceivable := v } }
    else if fact.Local = "ReceivablesFromBrokersDealersAndClearingOrganizations" then
      assignNumeric NumericValue processed endDate fact statement fun v =>
        { statement with
          BalanceSheet := { statement.BalanceSheet with ReceivablesFromBrokers := v } }
    else if fact.Local = "ReceivablesFromCustomers" then
      assignNumeric NumericValue processed endDate fact statement fun v =>
        { statement with
          BalanceSheet := { statement.BalanceSheet with ReceivablesFromCustomers := v } }
    else if fact.Local = "FeesInterestAndOther" then
      assignNumeric NumericValue processed endDate fact statement fun v =>
        { statement with
          BalanceSheet := { statement.BalanceSheet with ReceivablesFromOther := v } }
    else if fact.Local = "FinancialInstrumentsOwnedAtFairValue" then
      assignNumeric NumericValue processed endDate fact statement fun v =>
        { statement with
          BalanceSheet :=
            { statement.BalanceSheet with FinancialInstrumentsOwnedAtFairValue := v } }
    else if fact.Local = "CashAndSecuritiesSegregatedUnderFederalAndOtherRegulations" then
      assignNumeric NumericValue processed endDate fact statement fun v =>
        { statement with BalanceSheet := { statement.BalanceSheet with SegregatedCash := v } }
    else if fact.Local = "SecuritiesReceivedAsCollateral" then
      assignNumeric NumericValue processed endDate fact statement fun v =>
        { statement with
          BalanceSheet := { statement.BalanceSheet with SecuritiesReceivedAsCollateral := v } }
    else
      .ok statement
  else
    .ok statement

/-- The second loop (parse.go:54-160), with its early returns. -/
def mapFacts (processed : XBRL) (endDate : String) (facts : List Fact)
    (statement : Statement F) : Outcome (Statement F) :=
  match facts with
  | [] => .ok statement
  | fact :: rest =>
    (mapFact NumericValue processed endDate statement fact).andThen
      (mapFacts processed endDate rest)

/-- The derived fills (parse.go:162-177). -/
def deriveMetrics (statement : Statement F) : Statement F :=
  let s1 : Statement F :=
    if statement.BalanceSheet.CurrentAssets == 0 then
      { statement with
        BalanceSheet := { statement.BalanceSheet with
          CurrentAssets :=
            statement.BalanceSheet.CashAndEquiv +
              statement.BalanceSheet.CurrentLoansReceivable +
              statement.BalanceSheet.ReceivablesFromBrokers +
              statement.BalanceSheet.ReceivablesFromCustomers +
              statement.BalanceSheet.ReceivablesFromOther +
              statement.BalanceSheet.FinancialInstrumentsOwnedAtFairValue +
              statement.BalanceSheet.SegregatedCash +
              statement.BalanceSheet.SecuritiesReceivedAsCollateral } }
    else statement
  let s2 : Statement F :=
    if s1.BalanceSheet.CurrentLiabilities == 0 then
      { s1 with
        BalanceSheet := { s1.BalanceSheet with
          CurrentLiabilities := s1.BalanceSheet.TotalLiabilities } }
    else s1
  { s2 with
    BalanceSheet := { s2.BalanceSheet with
      WorkingCapital := s2.BalanceSheet.CurrentAssets - s2.BalanceSheet.CurrentLiabilities } }

/-- The routine `ParseXBRL` from the decoded document on (parse.go:45-179);
`now` is the `time.Now()` of line 30. -/
def ParseXBRL (now : Time) (processed : XBRL) : Outcome (Statement F) :=
  let endDate := resolveEndDate processed.Facts ""
  (mapFacts NumericValue processed endDate processed.Facts (Statement.init F now)).andThen
    fun statement => .ok (deriveMetrics statement)

end Mapper

/-! ## A concrete arithmetic for evaluating runs -/

/-- Whole amounts: `Int` with its own `0`, `+`, `-` and `==`. -/
instance : Float64 Int where
  zero_beq_zero := rfl

/-- The value of a string of decimal digits, read left to right from `acc`. -/
def digitsValue (chars : List Char) (acc : Nat) : Option Nat :=
  match chars with
  | [] => some acc
  | c :: rest =>
    if c.isDigit then digitsValue rest (10 * acc + (c.toNat - 48)) else none

/-- A `NumericValue` for whole amounts: a non-empty string of decimal digits is
its value, anything else is a syntax error. -/
def wholeNumericValue (fact : Fact) : Except String Int :=
  match fact.ValueStr.data with
  | [] => .error "invalid syntax"
  | chars =>
    match digitsValue chars 0 with
    | some n => .ok (Int.ofNat n)
    | none => .error "invalid syntax"

/-! ## Vocabulary of the properties -/

/-- The ten balance-sheet concept names of the dispatch (parse.go:68-157). -/
def balanceSheetConcepts : List String :=
  ["Assets", "Liabilities", "CashAndCashEquivalentsAtCarryingValue",
    "InvestmentsInAffiliatesSubsidiariesAssociatesAndJointVentures",
    "ReceivablesFromBrokersDealersAndClearingOrganizations", "ReceivablesFromCustomers",
    "FeesInterestAndOther", "FinancialInstrumentsOwnedAtFairValue",
    "CashAndSecuritiesSegregatedUnderFederalAndOtherRegulations",
    "SecuritiesReceivedAsCollateral"]

/-- The balance-sheet field that a concept name is mapped to, `none` for a
name outside the ten. -/
def mappedField {F : Type} (concept : String) (b : BalanceSheet F) : Option F :=
  if concept = "Assets" then some b.TotalAssets
  else if concept = "Liabilities" then some b.TotalLiabilities
  else if concept = "CashAndCashEquivalentsAtCarryingValue" then some b.CashAndEquiv
  else if concept = "InvestmentsInAffiliatesSubsidiariesAssociatesAndJointVentures" then
    some b.CurrentLoansReceivable
  else if concept = "ReceivablesFromBrokersDealersAndClearingOrganizations" then
    some b.ReceivablesFromBrokers
  else if concept = "ReceivablesFromCustomers" then some b.ReceivablesFromCustomers
  else if concept = "FeesInterestAndOther" then some b.ReceivablesFromOther
  else if concept = "FinancialInstrumentsOwnedAtFairValue" then
    some b.FinancialInstrumentsOwnedAtFairValue
  else if concept = "CashAndSecuritiesSegregatedUnderFederalAndOtherRegulations" then
    some b.SegregatedCash
  else if concept = "SecuritiesReceivedAsCollateral" then some b.SecuritiesReceivedAsCollateral
  else none

/-- The instant string of the context that a fact references (`none` when the
context is a duration or the reference is not in the table). -/
def instantOf (processed : XBRL) (fact : Fact) : Option String :=
  (contextOf processed fact.ContextRef).Period.Instant

/-- A valid fact bearing the concept name. -/
def bears (concept : String) (fact : Fact) : Bool :=
  fact.IsValid && decide (fact.Local = concept)

/-- A valid fact of the concept whose context instant equals `endDate`. -/
def contextMatched (processed : XBRL) (endDate concept : String) (fact : Fact) : Bool :=
  bears concept fact && decide (instantOf processed fact = some endDate)

/-- A trading symbol that the mapper can store: a valid `TradingSymbol` fact
whose value has no space and is not empty. -/
def acceptedSymbol (fact : Fact) : Bool :=
  bears "TradingSymbol" fact && !containsSpace fact.ValueStr && decide (fact.ValueStr ≠ "")

/-- The value of the last fact of a list, `""` for the empty list. -/
def lastValue (facts : List Fact) : String :=
  (facts.getLast?.map Fact.ValueStr).getD ""

/-- The value of the first fact of a list, `""` for the empty list. -/
def firstValue (facts : List Fact) : String :=
  (facts.head?.map Fact.ValueStr).getD ""

/-- The two statements agree on every field that no case of the dispatch
assigns: all but `FormType`, `Name`, `PrimaryExchange`, `PrimaryTicker` and the
ten mapped balance-sheet fields. -/
def Untouched {F : Type} (s s' : Statement F) : Prop :=
  s'.FilingDate = s.FilingDate ∧ s'.CalendarDate = s.CalendarDate ∧
  s'.ProcessingDate = s.ProcessingDate ∧
  s'.IncomeStatement = s.IncomeStatement ∧ s'.CashFlow = s.CashFlow ∧
  s'.CompanyProfile.CIK = s.CompanyProfile.CIK ∧
  s'.CompanyProfile.CUSIPs = s.CompanyProfile.CUSIPs ∧
  s'.CompanyProfile.FIGI = s.CompanyProfile.FIGI ∧
  s'.CompanyProfile.CompositeFIGI = s.CompanyProfile.CompositeFIGI ∧
  s'.CompanyProfile.ShareClassFIGI = s.CompanyProfile.ShareClassFIGI ∧
  s'.BalanceSheet.TotalInvestments = s.BalanceSheet.TotalInvestments ∧
  s'.BalanceSheet.CurrentInvestments = s.BalanceSheet.CurrentInvestments ∧
  s'.BalanceSheet.NonCurrentInvestments = s.BalanceSheet.NonCurrentInvestments ∧
  s'.BalanceSheet.CurrentAssets = s.BalanceSheet.CurrentAssets ∧
  s'.BalanceSheet.NonCurrentAssets = s.BalanceSheet.NonCurrentAssets ∧
  s'.BalanceSheet.CurrentLiabilities = s.BalanceSheet.CurrentLiabilities ∧
  s'.BalanceSheet.NonCurrentLiabilities = s.BalanceSheet.NonCurrentLiabilities ∧
  s'.BalanceSheet.TotalDebt = s.BalanceSheet.TotalDebt ∧
  s'.BalanceSheet.CurrentDebt = s.BalanceSheet.CurrentDebt ∧
  s'.BalanceSheet.NonCurrentDebt = s.BalanceSheet.NonCurrentDebt ∧
  s'.BalanceSheet.WorkingCapital = s.BalanceSheet.WorkingCapital ∧
  s'.BalanceSheet.DeferredRevenue = s.BalanceSheet.DeferredRevenue ∧
  s'.BalanceSheet.TotalDeposits = s.BalanceSheet.TotalDeposits ∧
  s'.BalanceSheet.NetPropertyPlantAndEquip = s.BalanceSheet.NetPropertyPlantAndEquip ∧
  s'.BalanceSheet.InventoryShortTerm = s.BalanceSheet.InventoryShortTerm ∧
  s'.BalanceSheet.TaxAssets = s.BalanceSheet.TaxAssets ∧
  s'.BalanceSheet.TaxLiabilities = s.BalanceSheet.TaxLiabilities ∧
  s'.BalanceSheet.TotalReceivables = s.BalanceSheet.TotalReceivables ∧
  s'.BalanceSheet.TotalPayables = s.BalanceSheet.TotalPayables ∧
  s'.BalanceSheet.Intangibles = s.BalanceSheet.Intangibles ∧
  s'.BalanceSheet.Equity = s.BalanceSheet.Equity ∧
  s'.BalanceSheet.RetainedEarnings = s.BalanceSheet.RetainedEarnings ∧
  s'.BalanceSheet.AccumulatedOtherComprehensiveIncome =
    s.BalanceSheet.AccumulatedOtherComprehensiveIncome

/-! ## Sample documents -/

/-- The contexts of the sample filings: two instants and one duration. -/
def sampleContexts : List (String × Context) :=
  [("i2023", ⟨⟨some "2023-02-28"⟩⟩), ("i2022", ⟨⟨some "2022-11-30"⟩⟩), ("d2023", ⟨⟨none⟩⟩)]

/-- The `Assets` fact of the sample filing at the period end. -/
def sampleAssets : Fact := ⟨"Assets", "i2023", "52033", true⟩

/-- A filing in the shape of the fixture of `statement_test.go`. -/
def sampleFiling : XBRL :=
  { Facts :=
      [⟨"DocumentType", "d2023", "10-Q", true⟩,
        ⟨"DocumentPeriodEndDate", "d2023", "2023-02-28", true⟩,
        ⟨"EntityRegistrantName", "d2023", "JEFFERIES FINANCIAL GROUP INC.", true⟩,
        ⟨"TradingSymbol", "d2023", "JEF", true⟩,
        ⟨"TradingSymbol", "d2023", "JEF 27A", true⟩,
        ⟨"SecurityExchangeName", "d2023", "NYSE", true⟩,
        sampleAssets,
        ⟨"Assets", "i2022", "51058", true⟩,
        ⟨"Liabilities", "i2023", "494", true⟩,
        ⟨"CashAndCashEquivalentsAtCarryingValue", "i2023", "7508", true⟩,
        ⟨"ReceivablesFromCustomers", "i2023", "1500", true⟩,
        ⟨"Revenues", "d2023", "2283", true⟩]
    ContextsByID := sampleContexts }

/-- The statement that `ParseXBRL` returns for `sampleFiling` at time `⟨1⟩`. -/
def sampleStatement : Statement Int :=
  { Statement.init Int ⟨1⟩ with
    FormType := "10-Q"
    CompanyProfile :=
      { CompanyProfile.zero with
        Name := "JEFFERIES FINANCIAL GROUP INC."
        PrimaryTicker := "JEF"
        PrimaryExchange := "NYSE" }
    BalanceSheet :=
      { BalanceSheet.zero Int with
        TotalAssets := 52033
        TotalLiabilities := 494
        CashAndEquiv := 7508
        ReceivablesFromCustomers := 1500
        CurrentAssets := 9008
        CurrentLiabilities := 494
        WorkingCapital := 8514 } }

/-- Two valid period facts with different values. -/
def twoPeriodFacts : List Fact :=
  [⟨"DocumentPeriodEndDate", "d2023", "2023-02-28", true⟩,
    ⟨"DocumentPeriodEndDate", "d2023", "2022-11-30", true⟩]

/-- The matched `Assets` fact of `unparsableFiling`, whose value is not a number. -/
def unparsableAssets : Fact := ⟨"Assets", "i2023", "n/a", true⟩

/-- A filing whose context-matched `Assets` value does not parse. -/
def unparsableFiling : XBRL :=
  { Facts :=
      [⟨"DocumentPeriodEndDate", "d2023", "2023-02-28", true⟩,
        ⟨"Liabilities", "i2023", "494", true⟩,
        unparsableAssets,
        ⟨"DocumentType", "d2023", "10-Q", true⟩]
    ContextsByID := sampleContexts }

/-- The period fact and the document type alone. -/
def periodOnlyFacts : List Fact :=
  [⟨"DocumentPeriodEndDate", "d2023", "2023-02-28", true⟩,
    ⟨"DocumentType", "d2023", "10-Q", true⟩]

/-- A valid `Assets` fact in the duration context `d2023`. -/
def durationAssets : Fact := ⟨"Assets", "d2023", "52033", true⟩

/-- A valid `Assets` fact whose context reference is not in the table. -/
def danglingAssets : Fact := ⟨"Assets", "missing", "52033", true⟩

/-- The statement that `ParseXBRL` returns for `periodOnlyFacts` at time `⟨1⟩`. -/
def periodOnlyStatement : Statement Int :=
  { Statement.init Int ⟨1⟩ with FormType := "10-Q" }

/-- A valid `TradingSymbol` fact whose value contains no space. -/
def spaceFreeSymbol (fact : Fact) : Bool :=
  bears "TradingSymbol" fact && !containsSpace fact.ValueStr

/-- An empty trading symbol followed by a proper one. -/
def emptySymbolFacts : List Fact :=
  [⟨"TradingSymbol", "d2023", "", true⟩, ⟨"TradingSymbol", "d2023", "JEF", true⟩]

/-- The statement that `ParseXBRL` returns for `emptySymbolFacts` at time `⟨1⟩`. -/
def emptySymbolStatement : Statement Int :=
  { Statement.init Int ⟨1⟩ with
    CompanyProfile := { CompanyProfile.zero with PrimaryTicker := "JEF" } }

/-- The `TradingSymbol` fact of `sampleFiling` whose value contains a space. -/
def spacedSymbol : Fact := ⟨"TradingSymbol", "d2023", "JEF 27A", true⟩

/-- Facts that give each of form type, name and exchange twice. -/
def restatedFacts : List Fact :=
  [⟨"DocumentType", "d2023", "10-Q", true⟩,
    ⟨"DocumentType", "d2023", "10-Q/A", true⟩,
    ⟨"EntityRegistrantName", "d2023", "OLD NAME INC.", true⟩,
    ⟨"EntityRegistrantName", "d2023", "NEW NAME INC.", true⟩,
    ⟨"SecurityExchangeName", "d2023", "NYSE", true⟩,
    ⟨"SecurityExchangeName", "d2023", "NASDAQ", true⟩]

/-- The statement that `ParseXBRL` returns for `restatedFacts` at time `⟨1⟩`. -/
def restatedStatement : Statement Int :=
  { Statement.init Int ⟨1⟩ with
    FormType := "10-Q/A"
    CompanyProfile :=
      { CompanyProfile.zero with Name := "NEW NAME INC.", PrimaryExchange := "NASDAQ" } }

/-- A filing without a period fact whose `Assets` fact references a context with
an empty instant string. -/
def emptyInstantFiling : XBRL :=
  { Facts := [⟨"Assets", "blank", "52033", true⟩]
    ContextsByID := [("blank", ⟨⟨some ""⟩⟩)] }

/-- The statement that `ParseXBRL` returns for `emptyInstantFiling` at time `⟨1⟩`. -/
def emptyInstantStatement : Statement Int :=
  { Statement.init Int ⟨1⟩ with
    BalanceSheet := { BalanceSheet.zero Int with TotalAssets := 52033 } }

/-- The facts of `sampleFiling` before its period fact. -/
def sampleBeforePeriod : List Fact := sampleFiling.Facts.take 1

/-- The facts of `sampleFiling` after its period fact. -/
def sampleAfterPeriod : List Fact := sampleFiling.Facts.drop 2

/-- The period fact of `sampleFiling`. -/
def samplePeriod : Fact := ⟨"DocumentPeriodEndDate", "d2023", "2023-02-28", true⟩

/-- The statement that `ParseXBRL` returns at time `⟨1⟩` for `sampleFiling`
without its period fact: no numeric field is filled. -/
def periodlessStatement : Statement Int :=
  { Statement.init Int ⟨1⟩ with
    FormType := "10-Q"
    CompanyProfile :=
      { CompanyProfile.zero with
        Name := "JEFFERIES FINANCIAL GROUP INC."
        PrimaryTicker := "JEF"
        PrimaryExchange := "NYSE" } }

/-- The statement with its `ProcessingDate` replaced by `t`. -/
def Statement.stamp {F : Type} (t : Time) (s : Statement F) : Statement F :=
  { s with ProcessingDate := t }

/-- The result of a call with the `ProcessingDate` of a returned statement reset
to the zero time: what the results of two calls made at different times are
compared on. -/
def Outcome.withoutProcessingDate {F : Type} (o : Outcome (Statement F)) :
    Outcome (Statement F) :=
  o.andThen fun s => .ok (s.stamp Time.zero)

/-- Whether the string has a space, tab, carriage return or newline. -/
def containsWhitespace (symbol : String) : Bool :=
  symbol.data.any Char.isWhitespace

/-- A valid `Assets` fact of the earlier instant `i2022` whose value is not a
number. -/
def staleAssets : Fact := ⟨"Assets", "i2022", "restated", true⟩

/-- A valid fact of a concept outside the dispatch, with a context reference
that is not in the table and a value that is not a number. -/
def unknownFact : Fact := ⟨"NetIncomeLoss", "missing", "n/a", true⟩

/-- An invalid `Assets` fact with a context reference that is not in the table. -/
def voidAssets : Fact := ⟨"Assets", "missing", "n/a", false⟩

/-- An invalid period fact. -/
def voidPeriod : Fact := ⟨"DocumentPeriodEndDate", "d2023", "1999-12-31", false⟩

/-- The facts of `sampleFiling` between two invalid facts. -/
def paddedFacts : List Fact := voidAssets :: sampleFiling.Facts ++ [voidPeriod]

/-- A single trading symbol whose value has a tab and no space. -/
def tabbedSymbolFacts : List Fact := [⟨"TradingSymbol", "d2023", "JEF\tA", true⟩]

/-- The statement that `ParseXBRL` returns for `tabbedSymbolFacts` at time `⟨1⟩`. -/
def tabbedStatement : Statement Int :=
  { Statement.init Int ⟨1⟩ with
    CompanyProfile := { CompanyProfile.zero with PrimaryTicker := "JEF\tA" } }

/-- A second `Assets` fact at the period end, after `sampleAssets`. -/
def laterAssets : Fact := ⟨"Assets", "i2023", "52040", true⟩

/-- A filing with two context-matched `Assets` facts. -/
def repeatedAssetsFiling : XBRL :=
  { Facts := [samplePeriod, sampleAssets, laterAssets]
    ContextsByID := sampleContexts }

/-- The statement that `ParseXBRL` returns for `repeatedAssetsFiling` at time `⟨1⟩`. -/
def repeatedAssetsStatement : Statement Int :=
  { Statement.init Int ⟨1⟩ with
    BalanceSheet := { BalanceSheet.zero Int with TotalAssets := 52040 } }

/-! ## One iteration of the dispatch -/

theorem name_cases (n : String) :
    n = "EntityRegistrantName" ∨ n = "SecurityExchangeName" ∨ n = "TradingSymbol" ∨
    n = "DocumentType" ∨ n ∈ balanceSheetConcepts ∨
    (n ≠ "EntityRegistrantName" ∧ n ≠ "SecurityExchangeName" ∧ n ≠ "TradingSymbol" ∧
      n ≠ "DocumentType" ∧ n ∉ balanceSheetConcepts) := by
  tauto

theorem balanceSheetConcepts_ne {n : String} (h : n ∈ balanceSheetConcepts) :
    n ≠ "EntityRegistrantName" ∧ n ≠ "SecurityExchangeName" ∧ n ≠ "TradingSymbol" ∧
      n ≠ "DocumentType" ∧ n ≠ "DocumentPeriodEndDate" := by
  simp only [balanceSheetConcepts, List.mem_cons, List.mem_singleton, List.not_mem_nil,
    or_false] at h
  rcases h with rfl | rfl | rfl | rfl | rfl | rfl | rfl | rfl | rfl | rfl <;> decide

theorem mappedField_isSome {F : Type} {n : String} (h : n ∈ balanceSheetConcepts)
    (b : BalanceSheet F) : ∃ x, mappedField n b = some x := by
  simp only [balanceSheetConcepts, List.mem_cons, List.mem_singleton, List.not_mem_nil,
    or_false] at h
  rcases h with rfl | rfl | rfl | rfl | rfl | rfl | rfl | rfl | rfl | rfl <;>
    simp [mappedField]

section Step

variable {F : Type} [Float64 F] (NumericValue : Fact → Except String F)
variable {processed : XBRL} {endDate : String} {s s' : Statement F} {fact : Fact}

theorem mapFact_invalid (hv : fact.IsValid = false) :
    mapFact NumericValue processed endDate s fact = .ok s := by
  simp [mapFact, hv]

theorem mapFact_other (hn : fact.Local ≠ "EntityRegistrantName" ∧
    fact.Local ≠ "SecurityExchangeName" ∧ fact.Local ≠ "TradingSymbol" ∧
    fact.Local ≠ "DocumentType" ∧ fact.Local ∉ balanceSheetConcepts) :
    mapFact NumericValue processed endDate s fact = .ok s := by
  obtain ⟨h1, h2, h3, h4, h5⟩ := hn
  simp only [balanceSheetConcepts, List.mem_cons, List.mem_singleton, List.not_mem_nil,
    or_false, not_or] at h5
  obtain ⟨a1, a2, a3, a4, a5, a6, a7, a8, a9, a10⟩ := h5
  unfold mapFact
  simp only [h1, h2, h3, h4, a1, a2, a3, a4, a5, a6, a7, a8, a9, a10, if_false, ite_self]

theorem mapFact_EntityRegistrantName (hv : fact.IsValid = true)
    (hl : fact.Local = "EntityRegistrantName") :
    mapFact NumericValue processed endDate s fact =
      .ok { s with CompanyProfile := { s.CompanyProfile with Name := fact.ValueStr } } := by
  simp [mapFact, hv, hl]

theorem mapFact_SecurityExchangeName (hv : fact.IsValid = true)
    (hl : fact.Local = "SecurityExchangeName") :
    mapFact NumericValue processed endDate s fact =
      .ok { s with
        CompanyProfile := { s.CompanyProfile with PrimaryExchange := fact.ValueStr } } := by
  simp [mapFact, hv, hl]

theorem mapFact_TradingSymbol (hv : fact.IsValid = true) (hl : fact.Local = "TradingSymbol") :
    mapFact NumericValue processed endDate s fact =
      if containsSpace fact.ValueStr = false ∧ s.CompanyProfile.PrimaryTicker = "" then
        .ok { s with
          CompanyProfile := { s.CompanyProfile with PrimaryTicker := fact.ValueStr } }
      else .ok s := by
  simp [mapFact, hv, hl]

theorem mapFact_DocumentType (hv : fact.IsValid = true) (hl : fact.Local = "DocumentType") :
    mapFact NumericValue processed endDate s fact = .ok { s with FormType := fact.ValueStr } := by
  simp [mapFact, hv, hl]

/-- For a valid fact of one of the ten concepts the iteration is `assignNumeric`
with an assignment that stores the value in the mapped field and nowhere else. -/
theorem mapFact_numeric (processed : XBRL) (endDate : String) (s : Statement F) {fact : Fact}
    (hv : fact.IsValid = true) (hl : fact.Local ∈ balanceSheetConcepts) :
    ∃ assign : F → Statement F,
      mapFact NumericValue processed endDate s fact =
        assignNumeric NumericValue processed endDate fact s assign ∧
      ∀ v, Untouched s (assign v) ∧ (assign v).CompanyProfile = s.CompanyProfile ∧
        (assign v).FormType = s.FormType ∧
        ∀ c ∈ balanceSheetConcepts, mappedField c (assign v).BalanceSheet =
          if fact.Local = c then some v else mappedField c s.BalanceSheet := by
  simp only [balanceSheetConcepts, List.mem_cons, List.mem_singleton, List.not_mem_nil,
    or_false] at hl
  rcases hl with hl | hl | hl | hl | hl | hl | hl | hl | hl | hl <;>
  · apply Exists.intro
    apply And.intro
    · simp only [mapFact, hv, hl, if_true, String.reduceEq, if_false]
      exact rfl
    intro v
    refine ⟨by simp [Untouched], rfl, rfl, fun c hc => ?_⟩
    simp only [balanceSheetConcepts, List.mem_cons, List.mem_singleton, List.not_mem_nil,
      or_false] at hc
    rcases hc with rfl | rfl | rfl | rfl | rfl | rfl | rfl | rfl | rfl | rfl <;>
      simp [mappedField, hl]

/-- The four ways `assignNumeric` can end. -/
theorem assignNumeric_cases (processed : XBRL) (endDate : String) (s : Statement F)
    (fact : Fact) (assign : F → Statement F) :
    (instantOf processed fact = none ∧
      assignNumeric NumericValue processed endDate fact s assign = .panic) ∨
    (∃ i, instantOf processed fact = some i ∧ i ≠ endDate ∧
      assignNumeric NumericValue processed endDate fact s assign = .ok s) ∨
    (∃ v, instantOf processed fact = some endDate ∧ NumericValue fact = .ok v ∧
      assignNumeric NumericValue processed endDate fact s assign = .ok (assign v)) ∨
    (∃ err, instantOf processed fact = some endDate ∧ NumericValue fact = .error err ∧
      assignNumeric NumericValue processed endDate fact s assign = .error err) := by
  unfold assignNumeric instantOf
  cases hi : (contextOf processed fact.ContextRef).Period.Instant with
  | none => simp
  | some i =>
    by_cases hie : i = endDate
    · subst hie
      cases hn : NumericValue fact <;> simp
    · simp [hie]

theorem bears_iff {concept : String} :
    bears concept fact = true ↔ fact.IsValid = true ∧ fact.Local = concept := by
  simp [bears]

theorem contextMatched_iff {concept : String} :
    contextMatched processed endDate concept fact = true ↔
      fact.IsValid = true ∧ fact.Local = concept ∧ instantOf processed fact = some endDate := by
  simp [contextMatched, bears, and_assoc]

/-- What a successful iteration does to the statement, field by field. -/
theorem mapFact_ok (h : mapFact NumericValue processed endDate s fact = .ok s') :
    Untouched s s' ∧
    s'.CompanyProfile.Name =
      (if bears "EntityRegistrantName" fact then fact.ValueStr else s.CompanyProfile.Name) ∧
    s'.CompanyProfile.PrimaryExchange =
      (if bears "SecurityExchangeName" fact then fact.ValueStr
        else s.CompanyProfile.PrimaryExchange) ∧
    s'.FormType = (if bears "DocumentType" fact then fact.ValueStr else s.FormType) ∧
    s'.CompanyProfile.PrimaryTicker =
      (if bears "TradingSymbol" fact = true ∧ containsSpace fact.ValueStr = false ∧
          s.CompanyProfile.PrimaryTicker = "" then fact.ValueStr
        else s.CompanyProfile.PrimaryTicker) ∧
    ∀ c ∈ balanceSheetConcepts, mappedField c s'.BalanceSheet =
      if contextMatched processed endDate c fact then (NumericValue fact).toOption
      else mappedField c s.BalanceSheet := by
  cases hv : fact.IsValid
  · rw [mapFact_invalid NumericValue hv] at h
    cases h
    simp [Untouched, bears, contextMatched, hv]
  · rcases name_cases fact.Local with hl | hl | hl | hl | hl | hl
    · rw [mapFact_EntityRegistrantName NumericValue hv hl] at h
      cases h
      refine ⟨by simp [Untouched], by simp [bears, hv, hl], by simp [bears, hv, hl],
        by simp [bears, hv, hl], by simp [bears, hv, hl], fun c hc => ?_⟩
      have hne := (balanceSheetConcepts_ne hc).1
      simp [contextMatched, bears, hl, Ne.symm hne]
    · rw [mapFact_SecurityExchangeName NumericValue hv hl] at h
      cases h
      refine ⟨by simp [Untouched], by simp [bears, hv, hl], by simp [bears, hv, hl],
        by simp [bears, hv, hl], by simp [bears, hv, hl], fun c hc => ?_⟩
      have hne := (balanceSheetConcepts_ne hc).2.1
      simp [contextMatched, bears, hl, Ne.symm hne]
    · rw [mapFact_TradingSymbol NumericValue hv hl] at h
      have hnum : ∀ c ∈ balanceSheetConcepts,
          contextMatched processed endDate c fact = false := by
        intro c hc
        have hne := (balanceSheetConcepts_ne hc).2.2.1
        simp [contextMatched, bears, hl, Ne.symm hne]
      split_ifs at h with hc <;> cases h
      · refine ⟨by simp [Untouched], by simp [bears, hv, hl], by simp [bears, hv, hl],
          by simp [bears, hv, hl], by simp [bears, hv, hl, hc.1, hc.2], fun c hc => ?_⟩
        simp [hnum c hc]
      · refine ⟨by simp [Untouched], by simp [bears, hv, hl], by simp [bears, hv, hl],
          by simp [bears, hv, hl], ?_, fun c hc => ?_⟩
        · rw [if_neg]
          rintro ⟨_, h2, h3⟩
          exact hc ⟨h2, h3⟩
        · simp [hnum c hc]
    · rw [mapFact_DocumentType NumericValue hv hl] at h
      cases h
      refine ⟨by simp [Untouched], by simp [bears, hv, hl], by simp [bears, hv, hl],
        by simp [bears, hv, hl], by simp [bears, hv, hl], fun c hc => ?_⟩
      have hne := (balanceSheetConcepts_ne hc).2.2.2.1
      simp [contextMatched, bears, hl, Ne.symm hne]
    · obtain ⟨assign, heq, hassign⟩ := mapFact_numeric NumericValue processed endDate s hv hl
      obtain ⟨n1, n2, n3, n4, _⟩ := balanceSheetConcepts_ne hl
      rw [heq] at h
      rcases assignNumeric_cases NumericValue processed endDate s fact assign with
        ⟨_, hr⟩ | ⟨i, hi, hie, hr⟩ | ⟨v, hi, hn, hr⟩ | ⟨err, _, _, hr⟩ <;>
        rw [hr] at h <;> cases h
      · refine ⟨by simp [Untouched], by simp [bears, n1], by simp [bears, n2],
          by simp [bears, n4], by simp [bears, n3], fun c hc => ?_⟩
        simp [contextMatched, hi, hie]
      · obtain ⟨a1, a2, a3, a4⟩ := hassign v
        refine ⟨a1, by simp [a2, bears, n1], by simp [a2, bears, n2],
          by simp [a3, bears, n4], by simp [a2, bears, n3], fun c hc => ?_⟩
        rw [a4 c hc]
        by_cases hcl : fact.Local = c <;>
          simp [contextMatched, bears, hv, hcl, hi, hn, Except.toOption]
    · rw [mapFact_other NumericValue hl] at h
      cases h
      obtain ⟨n1, n2, n3, n4, n5⟩ := hl
      refine ⟨by simp [Untouched], by simp [bears, n1], by simp [bears, n2],
        by simp [bears, n4], by simp [bears, n3], fun c hc => ?_⟩
      have hne : fact.Local ≠ c := fun hcl => n5 (hcl ▸ hc)
      simp [contextMatched, bears, hne]

/-- An iteration fails only at a context-matched balance-sheet fact whose value
does not parse, and with that fact's error. -/
theorem mapFact_error {err : String}
    (h : mapFact NumericValue processed endDate s fact = .error err) :
    fact.IsValid = true ∧ fact.Local ∈ balanceSheetConcepts ∧
      instantOf processed fact = some endDate ∧ NumericValue fact = .error err := by
  cases hv : fact.IsValid
  · rw [mapFact_invalid NumericValue hv] at h
    cases h
  · rcases name_cases fact.Local with hl | hl | hl | hl | hl | hl
    · rw [mapFact_EntityRegistrantName NumericValue hv hl] at h
      cases h
    · rw [mapFact_SecurityExchangeName NumericValue hv hl] at h
      cases h
    · rw [mapFact_TradingSymbol NumericValue hv hl] at h
      split_ifs at h
    · rw [mapFact_DocumentType NumericValue hv hl] at h
      cases h
    · obtain ⟨assign, heq, _⟩ := mapFact_numeric NumericValue processed endDate s hv hl
      rw [heq] at h
      rcases assignNumeric_cases NumericValue processed endDate s fact assign with
        ⟨_, hr⟩ | ⟨i, hi, hie, hr⟩ | ⟨v, hi, hn, hr⟩ | ⟨err', hi, hn, hr⟩
      · rw [hr] at h
        cases h
      · rw [hr] at h
        cases h
      · rw [hr] at h
        cases h
      · rw [hr] at h
        cases h
        exact ⟨rfl, hl, hi, hn⟩
    · rw [mapFact_other NumericValue hl] at h
      cases h

/-- An iteration panics exactly at a valid balance-sheet fact whose context has
no instant. -/
theorem mapFact_panic_iff :
    mapFact NumericValue processed endDate s fact = .panic ↔
      fact.IsValid = true ∧ fact.Local ∈ balanceSheetConcepts ∧
        instantOf processed fact = none := by
  constructor
  · intro h
    cases hv : fact.IsValid
    · rw [mapFact_invalid NumericValue hv] at h
      cases h
    · rcases name_cases fact.Local with hl | hl | hl | hl | hl | hl
      · rw [mapFact_EntityRegistrantName NumericValue hv hl] at h
        cases h
      · rw [mapFact_SecurityExchangeName NumericValue hv hl] at h
        cases h
      · rw [mapFact_TradingSymbol NumericValue hv hl] at h
        split_ifs at h
      · rw [mapFact_DocumentType NumericValue hv hl] at h
        cases h
      · obtain ⟨assign, heq, _⟩ := mapFact_numeric NumericValue processed endDate s hv hl
        rw [heq] at h
        rcases assignNumeric_cases NumericValue processed endDate s fact assign with
          ⟨hi, hr⟩ | ⟨i, hi, hie, hr⟩ | ⟨v, hi, hn, hr⟩ | ⟨err', hi, hn, hr⟩
        · exact ⟨rfl, hl, hi⟩
        · rw [hr] at h
          cases h
        · rw [hr] at h
          cases h
        · rw [hr] at h
          cases h
      · rw [mapFact_other NumericValue hl] at h
        cases h
  · rintro ⟨hv, hl, hi⟩
    obtain ⟨assign, heq, _⟩ := mapFact_numeric NumericValue processed endDate s hv hl
    rw [heq]
    rcases assignNumeric_cases NumericValue processed endDate s fact assign with
      ⟨_, hr⟩ | ⟨i, hi', _, _⟩ | ⟨v, hi', _, _⟩ | ⟨err', hi', _, _⟩
    · exact hr
    all_goals rw [hi] at hi'; cases hi'

end Step

/-! ## The loops -/

theorem resolveEndDate_append (xs ys : List Fact) (d : String) :
    resolveEndDate (xs ++ ys) d = resolveEndDate ys (resolveEndDate xs d) := by
  induction xs generalizing d with
  | nil => rfl
  | cons x xs ih =>
    simp only [List.cons_append, resolveEndDate]
    split_ifs <;> exact ih _

/-- The first loop leaves in `endDate` the value of the last valid
`DocumentPeriodEndDate` fact, and its initial value when there is none. -/
theorem resolveEndDate_eq (facts : List Fact) (d : String) :
    resolveEndDate facts d =
      (((facts.filter (bears "DocumentPeriodEndDate")).getLast?).map Fact.ValueStr).getD d := by
  induction facts generalizing d with
  | nil => rfl
  | cons x xs ih =>
    simp only [resolveEndDate]
    by_cases hx : x.IsValid = true ∧ x.Local = "DocumentPeriodEndDate"
    · have hb : bears "DocumentPeriodEndDate" x = true := by simpa [bears] using hx
      rw [if_pos hx, ih, List.filter_cons_of_pos hb, List.getLast?_cons]
      cases (List.filter (bears "DocumentPeriodEndDate") xs).getLast? <;> rfl
    · have hb : ¬ bears "DocumentPeriodEndDate" x = true := by simpa [bears] using hx
      rw [if_neg hx, ih, List.filter_cons_of_neg hb]

section Loop

variable {F : Type} [Float64 F] (NumericValue : Fact → Except String F)
variable {processed : XBRL} {endDate : String}

theorem mapFacts_cons_ok {fact : Fact} {rest : List Fact} {s s' : Statement F} :
    mapFacts NumericValue processed endDate (fact :: rest) s = .ok s' ↔
      ∃ s1, mapFact NumericValue processed endDate s fact = .ok s1 ∧
        mapFacts NumericValue processed endDate rest s1 = .ok s' := by
  simp only [mapFacts]
  cases mapFact NumericValue processed endDate s fact <;> simp [Outcome.andThen]

theorem mapFacts_append (xs ys : List Fact) (s : Statement F) :
    mapFacts NumericValue processed endDate (xs ++ ys) s =
      (mapFacts NumericValue processed endDate xs s).andThen
        (mapFacts NumericValue processed endDate ys) := by
  induction xs generalizing s with
  | nil => rfl
  | cons x xs ih =>
    simp only [List.cons_append, mapFacts]
    cases mapFact NumericValue processed endDate s x with
    | ok s1 => simpa [Outcome.andThen] using ih s1
    | error e => rfl
    | panic => rfl

theorem Untouched.refl (s : Statement F) : Untouched s s := by
  simp [Untouched]

theorem Untouched.trans {a b c : Statement F} (h1 : Untouched a b) (h2 : Untouched b c) :
    Untouched a c := by
  unfold Untouched at *
  simp_all

theorem mapFacts_untouched {facts : List Fact} {s s' : Statement F}
    (h : mapFacts NumericValue processed endDate facts s = .ok s') : Untouched s s' := by
  induction facts generalizing s with
  | nil =>
    cases h
    exact Untouched.refl _
  | cons x xs ih =>
    obtain ⟨s1, h1, h2⟩ := (mapFacts_cons_ok NumericValue).1 h
    exact Untouched.trans (mapFact_ok NumericValue h1).1 (ih h2)

/-- A field that each iteration either keeps or overwrites with `val fact` when
`sel fact` holds ends with the `val` of the last selected fact. -/
theorem mapFacts_lastWins {α : Type} (get : Statement F → α) (sel : Fact → Bool)
    (val : Fact → α)
    (step : ∀ (s s' : Statement F) (fact : Fact),
      mapFact NumericValue processed endDate s fact = .ok s' →
        get s' = if sel fact then val fact else get s)
    {facts : List Fact} {s s' : Statement F}
    (h : mapFacts NumericValue processed endDate facts s = .ok s') :
    get s' = (((facts.filter sel).getLast?).map val).getD (get s) := by
  induction facts generalizing s with
  | nil =>
    cases h
    rfl
  | cons x xs ih =>
    obtain ⟨s1, h1, h2⟩ := (mapFacts_cons_ok NumericValue).1 h
    rw [ih h2, step s s1 x h1]
    by_cases hx : sel x = true
    · rw [if_pos hx, List.filter_cons_of_pos hx, List.getLast?_cons]
      cases (List.filter sel xs).getLast? <;> rfl
    · rw [if_neg hx, List.filter_cons_of_neg hx]

/-- The ticker keeps a non-empty value and otherwise takes the first accepted
symbol. -/
theorem mapFacts_ticker {facts : List Fact} {s s' : Statement F}
    (h : mapFacts NumericValue processed endDate facts s = .ok s') :
    s'.CompanyProfile.PrimaryTicker =
      if s.CompanyProfile.PrimaryTicker = "" then firstValue (facts.filter acceptedSymbol)
      else s.CompanyProfile.PrimaryTicker := by
  induction facts generalizing s with
  | nil =>
    cases h
    by_cases ht : s'.CompanyProfile.PrimaryTicker = "" <;> simp [firstValue, ht]
  | cons x xs ih =>
    obtain ⟨s1, h1, h2⟩ := (mapFacts_cons_ok NumericValue).1 h
    have hstep := (mapFact_ok NumericValue h1).2.2.2.2.1
    rw [ih h2, hstep]
    by_cases hs : s.CompanyProfile.PrimaryTicker = ""
    · by_cases hb : bears "TradingSymbol" x = true ∧ containsSpace x.ValueStr = false
      · by_cases hv : x.ValueStr = ""
        · have hx : ¬ acceptedSymbol x = true := by simp [acceptedSymbol, hv]
          simp [hs, hb.1, hb.2, hv, List.filter_cons_of_neg hx]
        · have hx : acceptedSymbol x = true := by simp [acceptedSymbol, hv, hb.1, hb.2]
          simp [hs, hb.1, hb.2, hv, List.filter_cons_of_pos hx, firstValue]
      · have hx : ¬ acceptedSymbol x = true := by
          intro hx
          simp only [acceptedSymbol, Bool.and_eq_true, Bool.not_eq_true',
            decide_eq_true_eq] at hx
          exact hb ⟨hx.1.1, hx.1.2⟩
        have hb' : ¬ (bears "TradingSymbol" x = true ∧ containsSpace x.ValueStr = false ∧
            s.CompanyProfile.PrimaryTicker = "") := fun hh => hb ⟨hh.1, hh.2.1⟩
        rw [if_neg hb', List.filter_cons_of_neg hx]
    · have hb' : ¬ (bears "TradingSymbol" x = true ∧ containsSpace x.ValueStr = false ∧
          s.CompanyProfile.PrimaryTicker = "") := fun hh => hs hh.2.2
      rw [if_neg hb', if_neg hs, if_neg hs]

/-- The loop returns an error only with the error of a context-matched
balance-sheet fact. -/
theorem mapFacts_error {facts : List Fact} {s : Statement F} {err : String}
    (h : mapFacts NumericValue processed endDate facts s = .error err) :
    ∃ fact ∈ facts, fact.IsValid = true ∧ fact.Local ∈ balanceSheetConcepts ∧
      instantOf processed fact = some endDate ∧ NumericValue fact = .error err := by
  induction facts generalizing s with
  | nil => cases h
  | cons x xs ih =>
    simp only [mapFacts] at h
    cases h1 : mapFact NumericValue processed endDate s x with
    | ok s1 =>
      rw [h1] at h
      obtain ⟨g, hg, hgs⟩ := ih h
      exact ⟨g, List.mem_cons_of_mem _ hg, hgs⟩
    | error e =>
      rw [h1] at h
      cases h
      exact ⟨x, List.mem_cons_self _ _, mapFact_error NumericValue h1⟩
    | panic =>
      rw [h1] at h
      cases h

/-- The loop panics only at a valid balance-sheet fact whose context has no
instant. -/
theorem mapFacts_panic {facts : List Fact} {s : Statement F}
    (h : mapFacts NumericValue processed endDate facts s = .panic) :
    ∃ fact ∈ facts, fact.IsValid = true ∧ fact.Local ∈ balanceSheetConcepts ∧
      instantOf processed fact = none := by
  induction facts generalizing s with
  | nil => cases h
  | cons x xs ih =>
    simp only [mapFacts] at h
    cases h1 : mapFact NumericValue processed endDate s x with
    | ok s1 =>
      rw [h1] at h
      obtain ⟨g, hg, hgs⟩ := ih h
      exact ⟨g, List.mem_cons_of_mem _ hg, hgs⟩
    | error e =>
      rw [h1] at h
      cases h
    | panic => exact ⟨x, List.mem_cons_self _ _, (mapFact_panic_iff NumericValue).1 h1⟩

/-- When the loop completes, every context-matched balance-sheet fact parsed. -/
theorem mapFacts_ok_parses {facts : List Fact} {s s' : Statement F}
    (h : mapFacts NumericValue processed endDate facts s = .ok s') :
    ∀ fact ∈ facts, fact.IsValid = true → fact.Local ∈ balanceSheetConcepts →
      instantOf processed fact = some endDate → ∃ v, NumericValue fact = .ok v := by
  induction facts generalizing s with
  | nil => intro fact hf; cases hf
  | cons x xs ih =>
    obtain ⟨s1, h1, h2⟩ := (mapFacts_cons_ok NumericValue).1 h
    intro fact hf hv hl hi
    rcases List.mem_cons.1 hf with rfl | hf
    · have hm := (mapFact_ok NumericValue h1).2.2.2.2.2 fact.Local hl
      have hcm : contextMatched processed endDate fact.Local fact = true :=
        (contextMatched_iff).2 ⟨hv, rfl, hi⟩
      rw [if_pos hcm] at hm
      obtain ⟨x, hx⟩ := mappedField_isSome hl s1.BalanceSheet
      rw [hx] at hm
      cases hn : NumericValue fact with
      | ok v => exact ⟨v, rfl⟩
      | error e => rw [hn] at hm; cases hm
    · exact ih h2 fact hf hv hl hi

end Loop

/-! ## The derived fills and the whole routine -/

section Whole

variable {F : Type} [Float64 F] (NumericValue : Fact → Except String F)

/-- The derived fills write only `CurrentAssets`, `CurrentLiabilities` and
`WorkingCapital`. -/
theorem deriveMetrics_frame (m : Statement F) :
    (deriveMetrics m).FormType = m.FormType ∧
    (deriveMetrics m).CompanyProfile = m.CompanyProfile ∧
    ∀ c, mappedField c (deriveMetrics m).BalanceSheet = mappedField c m.BalanceSheet := by
  refine ⟨?_, ?_, fun c => ?_⟩ <;> simp only [deriveMetrics] <;> split_ifs <;> rfl

/-- The working capital is the difference of the two current totals. -/
theorem deriveMetrics_workingCapital (m : Statement F) :
    (deriveMetrics m).BalanceSheet.WorkingCapital =
      (deriveMetrics m).BalanceSheet.CurrentAssets -
        (deriveMetrics m).BalanceSheet.CurrentLiabilities := by
  simp only [deriveMetrics]

/-- With `CurrentAssets` still zero, the first fill stores the sum of the eight
components. -/
theorem deriveMetrics_currentAssets (m : Statement F) (h0 : m.BalanceSheet.CurrentAssets = 0) :
    (deriveMetrics m).BalanceSheet.CurrentAssets =
      (deriveMetrics m).BalanceSheet.CashAndEquiv +
        (deriveMetrics m).BalanceSheet.CurrentLoansReceivable +
        (deriveMetrics m).BalanceSheet.ReceivablesFromBrokers +
        (deriveMetrics m).BalanceSheet.ReceivablesFromCustomers +
        (deriveMetrics m).BalanceSheet.ReceivablesFromOther +
        (deriveMetrics m).BalanceSheet.FinancialInstrumentsOwnedAtFairValue +
        (deriveMetrics m).BalanceSheet.SegregatedCash +
        (deriveMetrics m).BalanceSheet.SecuritiesReceivedAsCollateral := by
  simp only [deriveMetrics, h0, Float64.zero_beq_zero, if_true]
  split_ifs <;> rfl

/-- A successful call is a completed second loop followed by the derived fills. -/
theorem ParseXBRL_ok_iff {now : Time} {processed : XBRL} {s : Statement F} :
    ParseXBRL NumericValue now processed = .ok s ↔
      ∃ m, mapFacts NumericValue processed (resolveEndDate processed.Facts "")
          processed.Facts (Statement.init F now) = .ok m ∧ s = deriveMetrics m := by
  simp only [ParseXBRL]
  cases mapFacts NumericValue processed (resolveEndDate processed.Facts "")
      processed.Facts (Statement.init F now) with
  | ok m => simp [Outcome.andThen, eq_comm]
  | error e => simp [Outcome.andThen]
  | panic => simp [Outcome.andThen]

/-- The mapped field of a concept after a successful call: the parsed value of
the last context-matched fact of the concept, zero when there is none. -/
theorem ParseXBRL_mappedField {now : Time} {processed : XBRL} {s : Statement F}
    (h : ParseXBRL NumericValue now processed = .ok s) {c : String}
    (hc : c ∈ balanceSheetConcepts) :
    mappedField c s.BalanceSheet =
      (((processed.Facts.filter
          (contextMatched processed (resolveEndDate processed.Facts "") c)).getLast?).map
        fun fact => (NumericValue fact).toOption).getD (some 0) := by
  obtain ⟨m, hm, rfl⟩ := (ParseXBRL_ok_iff NumericValue).1 h
  rw [(deriveMetrics_frame m).2.2 c,
    mapFacts_lastWins NumericValue (fun t => mappedField c t.BalanceSheet)
      (contextMatched processed (resolveEndDate processed.Facts "") c)
      (fun fact => (NumericValue fact).toOption)
      (fun a b fact hab => (mapFact_ok NumericValue hab).2.2.2.2.2 c hc) hm]
  congr 1
  simp only [balanceSheetConcepts, List.mem_cons, List.mem_singleton, List.not_mem_nil,
    or_false] at hc
  rcases hc with rfl | rfl | rfl | rfl | rfl | rfl | rfl | rfl | rfl | rfl <;> rfl

/-- The identity fields after a successful call. -/
theorem ParseXBRL_identity {now : Time} {processed : XBRL} {s : Statement F}
    (h : ParseXBRL NumericValue now processed = .ok s) :
    s.CompanyProfile.Name = lastValue (processed.Facts.filter (bears "EntityRegistrantName")) ∧
    s.CompanyProfile.PrimaryExchange =
      lastValue (processed.Facts.filter (bears "SecurityExchangeName")) ∧
    s.FormType = lastValue (processed.Facts.filter (bears "DocumentType")) ∧
    s.CompanyProfile.PrimaryTicker = firstValue (processed.Facts.filter acceptedSymbol) := by
  obtain ⟨m, hm, rfl⟩ := (ParseXBRL_ok_iff NumericValue).1 h
  obtain ⟨f1, f2, -⟩ := deriveMetrics_frame m
  rw [f1, f2]
  refine ⟨?_, ?_, ?_, ?_⟩
  · exact mapFacts_lastWins NumericValue (fun t => t.CompanyProfile.Name)
      (bears "EntityRegistrantName") Fact.ValueStr
      (fun a b fact hab => (mapFact_ok NumericValue hab).2.1) hm
  · exact mapFacts_lastWins NumericValue (fun t => t.CompanyProfile.PrimaryExchange)
      (bears "SecurityExchangeName") Fact.ValueStr
      (fun a b fact hab => (mapFact_ok NumericValue hab).2.2.1) hm
  · exact mapFacts_lastWins NumericValue (fun t => t.FormType)
      (bears "DocumentType") Fact.ValueStr
      (fun a b fact hab => (mapFact_ok NumericValue hab).2.2.2.1) hm
  · simpa [Statement.init, CompanyProfile.zero] using mapFacts_ticker NumericValue hm

/-- The second loop reads the document only through its context table. -/
theorem mapFacts_contexts (facts₁ facts₂ : List Fact) (contexts : List (String × Context))
    (endDate : String) (facts : List Fact) (s : Statement F) :
    mapFacts NumericValue ⟨facts₁, contexts⟩ endDate facts s =
      mapFacts NumericValue ⟨facts₂, contexts⟩ endDate facts s := by
  induction facts generalizing s with
  | nil => rfl
  | cons x xs ih =>
    simp only [mapFacts]
    have hx : mapFact NumericValue ⟨facts₁, contexts⟩ endDate s x =
        mapFact NumericValue ⟨facts₂, contexts⟩ endDate s x := rfl
    rw [hx]
    cases mapFact NumericValue ⟨facts₂, contexts⟩ endDate s x with
    | ok s1 => simpa [Outcome.andThen] using ih s1
    | error e => rfl
    | panic => rfl

/-- A fact that is no valid period fact and that every iteration passes over
can be removed without changing the result of the call. -/
theorem ParseXBRL_remove (now : Time) (pre post : List Fact) (fact : Fact)
    (contexts : List (String × Context))
    (hperiod : ¬ (fact.IsValid = true ∧ fact.Local = "DocumentPeriodEndDate"))
    (hskip : ∀ (endDate : String) (s : Statement F),
      mapFact NumericValue ⟨pre ++ post, contexts⟩ endDate s fact = .ok s) :
    ParseXBRL NumericValue now ⟨pre ++ fact :: post, contexts⟩ =
      ParseXBRL NumericValue now ⟨pre ++ post, contexts⟩ := by
  have hdate : resolveEndDate (pre ++ fact :: post) "" = resolveEndDate (pre ++ post) "" := by
    rw [resolveEndDate_append, resolveEndDate_append]
    simp only [resolveEndDate, if_neg hperiod]
  have hloop : ∀ (e : String) (s : Statement F),
      mapFacts NumericValue ⟨pre ++ post, contexts⟩ e (pre ++ fact :: post) s =
        mapFacts NumericValue ⟨pre ++ post, contexts⟩ e (pre ++ post) s := by
    intro e s
    rw [mapFacts_append, mapFacts_append]
    congr 1
    funext s1
    simp only [mapFacts, hskip e s1, Outcome.andThen]
  simp only [ParseXBRL, hdate]
  rw [mapFacts_contexts NumericValue (pre ++ fact :: post) (pre ++ post), hloop]

/-- `assignNumeric` commutes with a change of `ProcessingDate`. -/
theorem assignNumeric_stamp (t : Time) (processed : XBRL) (endDate : String) (fact : Fact)
    (s : Statement F) (assign : F → Statement F) :
    (assignNumeric NumericValue processed endDate fact s assign).andThen
        (fun s' => .ok (s'.stamp t)) =
      assignNumeric NumericValue processed endDate fact (s.stamp t)
        (fun v => (assign v).stamp t) := by
  unfold assignNumeric
  cases (contextOf processed fact.ContextRef).Period.Instant with
  | none => rfl
  | some i =>
    by_cases hie : i = endDate
    · simp only [hie, if_true]
      cases NumericValue fact <;> rfl
    · simp only [hie, if_false]
      rfl

/-- An iteration commutes with a change of `ProcessingDate`. -/
theorem mapFact_stamp (t : Time) (processed : XBRL) (endDate : String) (s : Statement F)
    (fact : Fact) :
    (mapFact NumericValue processed endDate s fact).andThen (fun s' => .ok (s'.stamp t)) =
      mapFact NumericValue processed endDate (s.stamp t) fact := by
  cases hv : fact.IsValid
  · rw [mapFact_invalid NumericValue hv, mapFact_invalid NumericValue hv]
    rfl
  · rcases name_cases fact.Local with hl | hl | hl | hl | hl | hl
    · rw [mapFact_EntityRegistrantName NumericValue hv hl,
        mapFact_EntityRegistrantName NumericValue hv hl]
      rfl
    · rw [mapFact_SecurityExchangeName NumericValue hv hl,
        mapFact_SecurityExchangeName NumericValue hv hl]
      rfl
    · rw [mapFact_TradingSymbol NumericValue hv hl, mapFact_TradingSymbol NumericValue hv hl]
      by_cases hc : containsSpace fact.ValueStr = false ∧ s.CompanyProfile.PrimaryTicker = ""
      · rw [if_pos hc, if_pos (show containsSpace fact.ValueStr = false ∧
          (s.stamp t).CompanyProfile.PrimaryTicker = "" from hc)]
        rfl
      · rw [if_neg hc, if_neg (show ¬ (containsSpace fact.ValueStr = false ∧
          (s.stamp t).CompanyProfile.PrimaryTicker = "") from hc)]
        rfl
    · rw [mapFact_DocumentType NumericValue hv hl, mapFact_DocumentType NumericValue hv hl]
      rfl
    · simp only [balanceSheetConcepts, List.mem_cons, List.mem_singleton, List.not_mem_nil,
        or_false] at hl
      rcases hl with hl | hl | hl | hl | hl | hl | hl | hl | hl | hl <;>
      · simp only [mapFact, hv, hl, if_true, String.reduceEq, if_false]
        exact assignNumeric_stamp NumericValue t processed endDate fact s _
    · rw [mapFact_other NumericValue hl, mapFact_other NumericValue hl]
      rfl

/-- The second loop commutes with a change of `ProcessingDate`. -/
theorem mapFacts_stamp (t : Time) (processed : XBRL) (endDate : String) (facts : List Fact)
    (s : Statement F) :
    (mapFacts NumericValue processed endDate facts s).andThen (fun s' => .ok (s'.stamp t)) =
      mapFacts NumericValue processed endDate facts (s.stamp t) := by
  induction facts generalizing s with
  | nil => rfl
  | cons x xs ih =>
    simp only [mapFacts]
    rw [← mapFact_stamp NumericValue t processed endDate s x]
    cases mapFact NumericValue processed endDate s x with
    | ok s1 => simpa [Outcome.andThen] using ih s1
    | error e => rfl
    | panic => rfl

/-- The derived fills commute with a change of `ProcessingDate`. -/
theorem deriveMetrics_stamp (t : Time) (s : Statement F) :
    deriveMetrics (s.stamp t) = (deriveMetrics s).stamp t := by
  simp only [deriveMetrics, Statement.stamp]
  split_ifs <;> rfl

/-- The time of the call reaches the result only through `ProcessingDate`. -/
theorem ParseXBRL_clock (now now' : Time) (processed : XBRL) :
    (ParseXBRL NumericValue now processed).withoutProcessingDate =
      (ParseXBRL NumericValue now' processed).withoutProcessingDate := by
  have key : ∀ t : Time, (ParseXBRL NumericValue t processed).withoutProcessingDate =
      (ParseXBRL NumericValue Time.zero processed) := by
    intro t
    have h0 : Statement.init F Time.zero = (Statement.init F t).stamp Time.zero := rfl
    simp only [ParseXBRL, Outcome.withoutProcessingDate]
    rw [h0, ← mapFacts_stamp NumericValue Time.zero processed _ processed.Facts
      (Statement.init F t)]
    cases mapFacts NumericValue processed (resolveEndDate processed.Facts "") processed.Facts
        (Statement.init F t) with
    | ok m => simp only [Outcome.andThen, deriveMetrics_stamp]
    | error e => rfl
    | panic => rfl
  rw [key now, key now']

/-- A fact that is no valid period fact and that the iteration passes over at
the resolved end date can be removed without changing the result of the call. -/
theorem ParseXBRL_remove_at (now : Time) (pre post : List Fact) (fact : Fact)
    (contexts : List (String × Context))
    (hperiod : ¬ (fact.IsValid = true ∧ fact.Local = "DocumentPeriodEndDate"))
    (hskip : ∀ s : Statement F,
      mapFact NumericValue ⟨pre ++ post, contexts⟩ (resolveEndDate (pre ++ post) "") s fact =
        .ok s) :
    resolveEndDate (pre ++ fact :: post) "" = resolveEndDate (pre ++ post) "" ∧
    ParseXBRL NumericValue now ⟨pre ++ fact :: post, contexts⟩ =
      ParseXBRL NumericValue now ⟨pre ++ post, contexts⟩ := by
  have hdate : resolveEndDate (pre ++ fact :: post) "" = resolveEndDate (pre ++ post) "" := by
    rw [resolveEndDate_append, resolveEndDate_append]
    simp only [resolveEndDate, if_neg hperiod]
  have hloop : ∀ s : Statement F,
      mapFacts NumericValue ⟨pre ++ post, contexts⟩ (resolveEndDate (pre ++ post) "")
          (pre ++ fact :: post) s =
        mapFacts NumericValue ⟨pre ++ post, contexts⟩ (resolveEndDate (pre ++ post) "")
          (pre ++ post) s := by
    intro s
    rw [mapFacts_append, mapFacts_append]
    congr 1
    funext s1
    simp only [mapFacts, hskip s1, Outcome.andThen]
  refine ⟨hdate, ?_⟩
  simp only [ParseXBRL, hdate]
  rw [mapFacts_contexts NumericValue (pre ++ fact :: post) (pre ++ post), hloop]

/-- The first loop sees only the valid facts. -/
theorem resolveEndDate_filter_valid (facts : List Fact) (d : String) :
    resolveEndDate (facts.filter Fact.IsValid) d = resolveEndDate facts d := by
  induction facts generalizing d with
  | nil => rfl
  | cons x xs ih =>
    cases hv : x.IsValid
    · rw [List.filter_cons_of_neg (by simp [hv])]
      simp only [resolveEndDate, hv, Bool.false_eq_true, false_and, if_false]
      exact ih d
    · rw [List.filter_cons_of_pos hv]
      simp only [resolveEndDate]
      split_ifs <;> exact ih _

/-- The second loop sees only the valid facts. -/
theorem mapFacts_filter_valid (processed : XBRL) (endDate : String) (facts : List Fact)
    (s : Statement F) :
    mapFacts NumericValue processed endDate (facts.filter Fact.IsValid) s =
      mapFacts NumericValue processed endDate facts s := by
  induction facts generalizing s with
  | nil => rfl
  | cons x xs ih =>
    cases hv : x.IsValid
    · rw [List.filter_cons_of_neg (by simp [hv])]
      simp only [mapFacts, mapFact_invalid NumericValue hv, Outcome.andThen]
      exact ih s
    · rw [List.filter_cons_of_pos hv]
      simp only [mapFacts]
      cases mapFact NumericValue processed endDate s x with
      | ok s1 => simpa [Outcome.andThen] using ih s1
      | error e => rfl
      | panic => rfl

/-- With `CurrentLiabilities` still zero, the second fill stores
`TotalLiabilities`. -/
theorem deriveMetrics_currentLiabilities (m : Statement F)
    (h0 : m.BalanceSheet.CurrentLiabilities = 0) :
    (deriveMetrics m).BalanceSheet.CurrentLiabilities =
      (deriveMetrics m).BalanceSheet.TotalLiabilities := by
  have hz : (m.BalanceSheet.CurrentLiabilities == 0) = true := by
    rw [h0]
    exact Float64.zero_beq_zero
  by_cases hc : (m.BalanceSheet.CurrentAssets == 0) = true
  · simp only [deriveMetrics, hc, hz, if_true]
  · simp only [deriveMetrics, hc, hz, if_true, if_false, Bool.false_eq_true]

/-- The derived fills keep every field but `CurrentAssets`, `CurrentLiabilities`
and `WorkingCapital`. -/
theorem deriveMetrics_rest (m : Statement F) :
    (deriveMetrics m).FilingDate = m.FilingDate ∧
    (deriveMetrics m).CalendarDate = m.CalendarDate ∧
    (deriveMetrics m).ProcessingDate = m.ProcessingDate ∧
    (deriveMetrics m).IncomeStatement = m.IncomeStatement ∧
    (deriveMetrics m).CashFlow = m.CashFlow ∧
    (deriveMetrics m).BalanceSheet.TotalInvestments = m.BalanceSheet.TotalInvestments ∧
    (deriveMetrics m).BalanceSheet.CurrentInvestments = m.BalanceSheet.CurrentInvestments ∧
    (deriveMetrics m).BalanceSheet.NonCurrentInvestments =
      m.BalanceSheet.NonCurrentInvestments ∧
    (deriveMetrics m).BalanceSheet.NonCurrentAssets = m.BalanceSheet.NonCurrentAssets ∧
    (deriveMetrics m).BalanceSheet.NonCurrentLiabilities =
      m.BalanceSheet.NonCurrentLiabilities ∧
    (deriveMetrics m).BalanceSheet.TotalDebt = m.BalanceSheet.TotalDebt ∧
    (deriveMetrics m).BalanceSheet.CurrentDebt = m.BalanceSheet.CurrentDebt ∧
    (deriveMetrics m).BalanceSheet.NonCurrentDebt = m.BalanceSheet.NonCurrentDebt ∧
    (deriveMetrics m).BalanceSheet.DeferredRevenue = m.BalanceSheet.DeferredRevenue ∧
    (deriveMetrics m).BalanceSheet.TotalDeposits = m.BalanceSheet.TotalDeposits ∧
    (deriveMetrics m).BalanceSheet.NetPropertyPlantAndEquip =
      m.BalanceSheet.NetPropertyPlantAndEquip ∧
    (deriveMetrics m).BalanceSheet.InventoryShortTerm = m.BalanceSheet.InventoryShortTerm ∧
    (deriveMetrics m).BalanceSheet.TaxAssets = m.BalanceSheet.TaxAssets ∧
    (deriveMetrics m).BalanceSheet.TaxLiabilities = m.BalanceSheet.TaxLiabilities ∧
    (deriveMetrics m).BalanceSheet.TotalReceivables = m.BalanceSheet.TotalReceivables ∧
    (deriveMetrics m).BalanceSheet.TotalPayables = m.BalanceSheet.TotalPayables ∧
    (deriveMetrics m).BalanceSheet.Intangibles = m.BalanceSheet.Intangibles ∧
    (deriveMetrics m).BalanceSheet.Equity = m.BalanceSheet.Equity ∧
    (deriveMetrics m).BalanceSheet.RetainedEarnings = m.BalanceSheet.RetainedEarnings ∧
    (deriveMetrics m).BalanceSheet.AccumulatedOtherComprehensiveIncome =
      m.BalanceSheet.AccumulatedOtherComprehensiveIncome := by
  simp only [deriveMetrics]
  split_ifs <;> simp only [and_self]

end Whole

/-! ## The claims -/

/-- C1: context-filtered numeric assignment. When extraction succeeds and, for
one of the ten balance-sheet concepts, exactly one valid fact of that concept
has a context instant equal to the resolved end date, and its value parses to
`x`, then the field mapped to the concept holds `x` in the returned statement. -/
theorem numeric_assignment_of_unique_match {F : Type} [Float64 F]
    (NumericValue : Fact → Except String F) (now : Time) (processed : XBRL)
    (s : Statement F) (concept : String) (fact : Fact) (x : F)
    (hok : ParseXBRL NumericValue now processed = .ok s)
    (hc : concept ∈ balanceSheetConcepts)
    (hone : processed.Facts.filter
      (contextMatched processed (resolveEndDate processed.Facts "") concept) = [fact])
    (hx : NumericValue fact = .ok x) :
    mappedField concept s.BalanceSheet = some x := by
  rw [ParseXBRL_mappedField NumericValue hok hc, hone]
  simp [hx, Except.toOption]

/-- C1 at the sample filing: the single matched `Assets` fact fills `TotalAssets`. -/
theorem numeric_assignment_of_unique_match_witness :
    ParseXBRL wholeNumericValue ⟨1⟩ sampleFiling = .ok sampleStatement ∧
    "Assets" ∈ balanceSheetConcepts ∧
    sampleFiling.Facts.filter
      (contextMatched sampleFiling (resolveEndDate sampleFiling.Facts "") "Assets") =
        [sampleAssets] ∧
    wholeNumericValue sampleAssets = .ok 52033 ∧
    sampleStatement.BalanceSheet.TotalAssets = 52033 :=
  ⟨rfl, by decide, by decide, rfl,
    Option.some.inj (numeric_assignment_of_unique_match wholeNumericValue ⟨1⟩ sampleFiling
      sampleStatement "Assets" sampleAssets 52033 rfl (by decide) (by decide) rfl)⟩

/-- C2 as stated fails: of two valid `DocumentPeriodEndDate` facts the loop keeps
the value of the later one, not of the first. -/
theorem period_resolution_first_counterexample :
    resolveEndDate twoPeriodFacts "" = "2022-11-30" ∧
    firstValue (twoPeriodFacts.filter (bears "DocumentPeriodEndDate")) = "2023-02-28" ∧
    resolveEndDate twoPeriodFacts "" ≠
      firstValue (twoPeriodFacts.filter (bears "DocumentPeriodEndDate")) := by
  decide

/-- C2, amended: the end date that `ParseXBRL` hands to the fact mapper is the
value of the LAST valid `DocumentPeriodEndDate` fact in sequence order, and the
empty string when no valid fact bears that name. -/
theorem period_resolution_last {F : Type} [Float64 F]
    (NumericValue : Fact → Except String F) (now : Time) (processed : XBRL) :
    resolveEndDate processed.Facts "" =
      lastValue (processed.Facts.filter (bears "DocumentPeriodEndDate")) ∧
    (processed.Facts.filter (bears "DocumentPeriodEndDate") = [] →
      resolveEndDate processed.Facts "" = "") ∧
    ParseXBRL NumericValue now processed =
      (mapFacts NumericValue processed
        (lastValue (processed.Facts.filter (bears "DocumentPeriodEndDate")))
        processed.Facts (Statement.init F now)).andThen
        fun statement => .ok (deriveMetrics statement) := by
  have h := resolveEndDate_eq processed.Facts ""
  refine ⟨h, fun h0 => ?_, ?_⟩
  · rw [h, h0]
    rfl
  · simp only [ParseXBRL, h, lastValue]

/-- C2, amended, at two period facts and at facts without a valid period fact:
the later value is the end date, and without a period fact it is empty. -/
theorem period_resolution_last_witness :
    resolveEndDate twoPeriodFacts "" = "2022-11-30" ∧
    lastValue (twoPeriodFacts.filter (bears "DocumentPeriodEndDate")) = "2022-11-30" ∧
    emptySymbolFacts.filter (bears "DocumentPeriodEndDate") = [] ∧
    resolveEndDate emptySymbolFacts "" = "" :=
  ⟨by decide,
    (period_resolution_last wholeNumericValue ⟨1⟩ ⟨twoPeriodFacts, sampleContexts⟩).1.symm.trans
      (by decide),
    by decide,
    (period_resolution_last wholeNumericValue ⟨1⟩ ⟨emptySymbolFacts, sampleContexts⟩).2.1
      (by decide)⟩

/-- C3: fatal propagation. When every valid balance-sheet fact references a
context with an instant, and some valid balance-sheet fact has a context instant
equal to the resolved end date and a value that does not parse, the call returns
an error and no statement, and the error is the conversion error of such a fact,
wherever the fact stands in the sequence. -/
theorem fatal_propagation {F : Type} [Float64 F]
    (NumericValue : Fact → Except String F) (now : Time) (processed : XBRL) (fact : Fact)
    (e : String)
    (hinst : ∀ g ∈ processed.Facts, g.IsValid = true → g.Local ∈ balanceSheetConcepts →
      instantOf processed g ≠ none)
    (hmem : fact ∈ processed.Facts) (hv : fact.IsValid = true)
    (hl : fact.Local ∈ balanceSheetConcepts)
    (hi : instantOf processed fact = some (resolveEndDate processed.Facts ""))
    (hbad : NumericValue fact = .error e) :
    ∃ err, ParseXBRL NumericValue now processed = .error err ∧
      ∃ g ∈ processed.Facts, g.IsValid = true ∧ g.Local ∈ balanceSheetConcepts ∧
        instantOf processed g = some (resolveEndDate processed.Facts "") ∧
        NumericValue g = .error err := by
  simp only [ParseXBRL]
  cases hm : mapFacts NumericValue processed (resolveEndDate processed.Facts "")
      processed.Facts (Statement.init F now) with
  | ok m =>
    obtain ⟨v, hv'⟩ := mapFacts_ok_parses NumericValue hm fact hmem hv hl hi
    rw [hbad] at hv'
    cases hv'
  | error err => exact ⟨err, rfl, mapFacts_error NumericValue hm⟩
  | panic =>
    obtain ⟨g, hg, hgv, hgl, hgi⟩ := mapFacts_panic NumericValue hm
    exact absurd hgi (hinst g hg hgv hgl)

/-- C3 at a filing whose matched `Assets` value is `n/a`: the call returns the
parse error although a `Liabilities` fact before it was stored. -/
theorem fatal_propagation_witness :
    (∀ g ∈ unparsableFiling.Facts, g.IsValid = true → g.Local ∈ balanceSheetConcepts →
      instantOf unparsableFiling g ≠ none) ∧
    unparsableAssets ∈ unparsableFiling.Facts ∧ unparsableAssets.IsValid = true ∧
    unparsableAssets.Local ∈ balanceSheetConcepts ∧
    instantOf unparsableFiling unparsableAssets =
      some (resolveEndDate unparsableFiling.Facts "") ∧
    wholeNumericValue unparsableAssets = .error "invalid syntax" ∧
    ∃ err, ParseXBRL wholeNumericValue ⟨1⟩ unparsableFiling = .error err ∧
      ∃ g ∈ unparsableFiling.Facts, g.IsValid = true ∧ g.Local ∈ balanceSheetConcepts ∧
        instantOf unparsableFiling g = some (resolveEndDate unparsableFiling.Facts "") ∧
        wholeNumericValue g = .error err :=
  ⟨by decide, by decide, rfl, by decide, by decide, rfl,
    fatal_propagation wholeNumericValue ⟨1⟩ unparsableFiling unparsableAssets "invalid syntax"
      (by decide) (by decide) rfl (by decide) (by decide) rfl⟩

/-- C4 fails on the code: a valid `Assets` fact whose context is a duration, or
whose context reference is absent from the table, makes the call panic at the
dereference of `Period.Instant`, while the same input without that fact returns
a statement. -/
theorem instantless_fact_panics :
    instantOf ⟨periodOnlyFacts ++ [durationAssets], sampleContexts⟩ durationAssets = none ∧
    ParseXBRL wholeNumericValue ⟨1⟩ ⟨periodOnlyFacts ++ [durationAssets], sampleContexts⟩ =
      .panic ∧
    instantOf ⟨periodOnlyFacts ++ [danglingAssets], sampleContexts⟩ danglingAssets = none ∧
    ParseXBRL wholeNumericValue ⟨1⟩ ⟨periodOnlyFacts ++ [danglingAssets], sampleContexts⟩ =
      .panic ∧
    ParseXBRL wholeNumericValue ⟨1⟩ ⟨periodOnlyFacts, sampleContexts⟩ =
      .ok periodOnlyStatement :=
  ⟨by decide, rfl, by decide, rfl, rfl⟩

/-- C5 as stated fails: when the first space-free `TradingSymbol` value is the
empty string, the ticker is still unset and the next space-free value is stored. -/
theorem ticker_first_space_free_counterexample :
    ParseXBRL wholeNumericValue ⟨1⟩ ⟨emptySymbolFacts, sampleContexts⟩ =
      .ok emptySymbolStatement ∧
    emptySymbolStatement.CompanyProfile.PrimaryTicker = "JEF" ∧
    firstValue (emptySymbolFacts.filter spaceFreeSymbol) = "" :=
  ⟨rfl, by decide, by decide⟩

/-- C5, amended: when extraction succeeds, `PrimaryTicker` is the value of the
first valid `TradingSymbol` fact, in sequence order, whose value contains no
space and is not empty, and it is the empty string when there is no such fact;
a later value therefore never replaces an earlier accepted non-empty one. -/
theorem ticker_first_accepted {F : Type} [Float64 F]
    (NumericValue : Fact → Except String F) (now : Time) (processed : XBRL)
    (s : Statement F) (hok : ParseXBRL NumericValue now processed = .ok s) :
    s.CompanyProfile.PrimaryTicker = firstValue (processed.Facts.filter acceptedSymbol) ∧
    ∀ (pre post : List Fact) (fact : Fact), processed.Facts = pre ++ fact :: post →
      acceptedSymbol fact = true → (∀ g ∈ pre, acceptedSymbol g = false) →
      s.CompanyProfile.PrimaryTicker = fact.ValueStr := by
  have h := (ParseXBRL_identity NumericValue hok).2.2.2
  refine ⟨h, fun pre post fact hsplit hacc hpre => ?_⟩
  have hnil : pre.filter acceptedSymbol = [] := by
    rw [List.filter_eq_nil_iff]
    intro g hg
    simp [hpre g hg]
  rw [h, hsplit, List.filter_append, hnil, List.nil_append, List.filter_cons_of_pos hacc]
  rfl

/-- C5, amended, at the sample filing: `JEF` is the first accepted symbol and the
ticker. -/
theorem ticker_first_accepted_witness :
    ParseXBRL wholeNumericValue ⟨1⟩ sampleFiling = .ok sampleStatement ∧
    sampleStatement.CompanyProfile.PrimaryTicker =
      firstValue (sampleFiling.Facts.filter acceptedSymbol) ∧
    firstValue (sampleFiling.Facts.filter acceptedSymbol) = "JEF" :=
  ⟨rfl, (ticker_first_accepted wholeNumericValue ⟨1⟩ sampleFiling sampleStatement (by rfl)).1,
    by decide⟩

/-- C6: ticker space rule. When extraction succeeds the returned `PrimaryTicker`
contains no space, it differs from the value of every `TradingSymbol` fact whose
value contains a space, and removing such a fact from anywhere in the sequence
leaves the result of the call unchanged. -/
theorem ticker_has_no_space {F : Type} [Float64 F]
    (NumericValue : Fact → Except String F) (now : Time) (processed : XBRL)
    (s : Statement F) (hok : ParseXBRL NumericValue now processed = .ok s) :
    containsSpace s.CompanyProfile.PrimaryTicker = false ∧
    (∀ fact ∈ processed.Facts, fact.Local = "TradingSymbol" →
      containsSpace fact.ValueStr = true → s.CompanyProfile.PrimaryTicker ≠ fact.ValueStr) ∧
    ∀ (pre post : List Fact) (fact : Fact), processed.Facts = pre ++ fact :: post →
      fact.Local = "TradingSymbol" → containsSpace fact.ValueStr = true →
      ParseXBRL NumericValue now ⟨pre ++ post, processed.ContextsByID⟩ = .ok s := by
  have h := (ParseXBRL_identity NumericValue hok).2.2.2
  have hfree : containsSpace s.CompanyProfile.PrimaryTicker = false := by
    rw [h]
    cases hf : processed.Facts.filter acceptedSymbol with
    | nil => decide
    | cons g gs =>
      have hg : g ∈ processed.Facts.filter acceptedSymbol := by
        rw [hf]
        exact List.mem_cons_self _ _
      have hacc := (List.mem_filter.1 hg).2
      simp only [acceptedSymbol, Bool.and_eq_true, Bool.not_eq_true'] at hacc
      simpa [firstValue] using hacc.1.2
  refine ⟨hfree, fun fact _ _ hsp heq => ?_, fun pre post fact hsplit hl hsp => ?_⟩
  · rw [heq, hsp] at hfree
    cases hfree
  · obtain ⟨facts, contexts⟩ := processed
    simp only at hsplit
    subst hsplit
    rw [← hok]
    symm
    apply ParseXBRL_remove
    · rintro ⟨_, hd⟩
      rw [hl] at hd
      exact absurd hd (by decide)
    · intro e t
      cases hv : fact.IsValid
      · exact mapFact_invalid NumericValue hv
      · rw [mapFact_TradingSymbol NumericValue hv hl, if_neg]
        rintro ⟨hno, _⟩
        rw [hsp] at hno
        cases hno

/-- C6 at the sample filing: the symbol `JEF 27A` is not the ticker, and the
filing without that fact gives the same statement. -/
theorem ticker_has_no_space_witness :
    ParseXBRL wholeNumericValue ⟨1⟩ sampleFiling = .ok sampleStatement ∧
    containsSpace sampleStatement.CompanyProfile.PrimaryTicker = false ∧
    spacedSymbol ∈ sampleFiling.Facts ∧ containsSpace spacedSymbol.ValueStr = true ∧
    sampleStatement.CompanyProfile.PrimaryTicker ≠ spacedSymbol.ValueStr ∧
    ParseXBRL wholeNumericValue ⟨1⟩
      ⟨sampleFiling.Facts.take 4 ++ sampleFiling.Facts.drop 5, sampleFiling.ContextsByID⟩ =
        .ok sampleStatement :=
  ⟨rfl, (ticker_has_no_space wholeNumericValue ⟨1⟩ sampleFiling sampleStatement (by rfl)).1,
    by decide, by decide,
    (ticker_has_no_space wholeNumericValue ⟨1⟩ sampleFiling sampleStatement (by rfl)).2.1
      spacedSymbol (by decide) rfl (by decide),
    (ticker_has_no_space wholeNumericValue ⟨1⟩ sampleFiling sampleStatement (by rfl)).2.2
      (sampleFiling.Facts.take 4) (sampleFiling.Facts.drop 5) spacedSymbol rfl rfl
      (by decide)⟩

/-- C7 as stated fails: of two valid facts of the same identity concept the
later value is kept, for the form type, the name and the exchange alike. -/
theorem identity_first_counterexample :
    ParseXBRL wholeNumericValue ⟨1⟩ ⟨restatedFacts, sampleContexts⟩ = .ok restatedStatement ∧
    restatedStatement.CompanyProfile.Name = "NEW NAME INC." ∧
    firstValue (restatedFacts.filter (bears "EntityRegistrantName")) = "OLD NAME INC." ∧
    restatedStatement.CompanyProfile.PrimaryExchange = "NASDAQ" ∧
    firstValue (restatedFacts.filter (bears "SecurityExchangeName")) = "NYSE" ∧
    restatedStatement.FormType = "10-Q/A" ∧
    firstValue (restatedFacts.filter (bears "DocumentType")) = "10-Q" :=
  ⟨rfl, by decide, by decide, by decide, by decide, by decide, by decide⟩

/-- C7, amended: direct-assignment fields are last-wins. When extraction
succeeds, `CompanyProfile.Name` is the value of the LAST valid
`EntityRegistrantName` fact in sequence order, `PrimaryExchange` that of the last
valid `SecurityExchangeName` fact and `FormType` that of the last valid
`DocumentType` fact, each empty when no such fact exists; the contexts of these
facts play no part. -/
theorem identity_last_wins {F : Type} [Float64 F]
    (NumericValue : Fact → Except String F) (now : Time) (processed : XBRL)
    (s : Statement F) (hok : ParseXBRL NumericValue now processed = .ok s) :
    s.CompanyProfile.Name = lastValue (processed.Facts.filter (bears "EntityRegistrantName")) ∧
    s.CompanyProfile.PrimaryExchange =
      lastValue (processed.Facts.filter (bears "SecurityExchangeName")) ∧
    s.FormType = lastValue (processed.Facts.filter (bears "DocumentType")) := by
  obtain ⟨h1, h2, h3, -⟩ := ParseXBRL_identity NumericValue hok
  exact ⟨h1, h2, h3⟩

/-- C7, amended, at the facts that restate each identity concept. -/
theorem identity_last_wins_witness :
    ParseXBRL wholeNumericValue ⟨1⟩ ⟨restatedFacts, sampleContexts⟩ = .ok restatedStatement ∧
    lastValue (restatedFacts.filter (bears "EntityRegistrantName")) = "NEW NAME INC." ∧
    lastValue (restatedFacts.filter (bears "SecurityExchangeName")) = "NASDAQ" ∧
    lastValue (restatedFacts.filter (bears "DocumentType")) = "10-Q/A" ∧
    (restatedStatement.CompanyProfile.Name =
        lastValue (restatedFacts.filter (bears "EntityRegistrantName")) ∧
      restatedStatement.CompanyProfile.PrimaryExchange =
        lastValue (restatedFacts.filter (bears "SecurityExchangeName")) ∧
      restatedStatement.FormType = lastValue (restatedFacts.filter (bears "DocumentType"))) :=
  ⟨rfl, by decide, by decide, by decide,
    identity_last_wins wholeNumericValue ⟨1⟩ ⟨restatedFacts, sampleContexts⟩ restatedStatement
      (by rfl)⟩

/-- C8 as stated fails: without any period fact the end date is the empty string,
and an `Assets` fact whose context has the empty string as instant is matched and
fills `TotalAssets`. -/
theorem missing_period_counterexample :
    emptyInstantFiling.Facts.filter (bears "DocumentPeriodEndDate") = [] ∧
    ParseXBRL wholeNumericValue ⟨1⟩ emptyInstantFiling = .ok emptyInstantStatement ∧
    emptyInstantStatement.BalanceSheet.TotalAssets = 52033 ∧
    emptyInstantStatement.BalanceSheet.TotalAssets ≠ 0 :=
  ⟨by decide, rfl, rfl, by decide⟩

/-- C8, amended: when the sequence has no valid `DocumentPeriodEndDate` fact and
extraction succeeds, the mapped field of each of the ten concepts is zero
provided no valid fact of that concept references a context whose instant is the
empty string; and `Name`, `PrimaryExchange`, `PrimaryTicker` and `FormType` are
those of any successful extraction of the same sequence with a period fact
inserted. -/
theorem missing_period {F : Type} [Float64 F]
    (NumericValue : Fact → Except String F) (now : Time) (processed : XBRL)
    (s : Statement F)
    (hnone : processed.Facts.filter (bears "DocumentPeriodEndDate") = [])
    (hok : ParseXBRL NumericValue now processed = .ok s) :
    (∀ c ∈ balanceSheetConcepts,
      (∀ g ∈ processed.Facts, bears c g = true → instantOf processed g ≠ some "") →
      mappedField c s.BalanceSheet = some 0) ∧
    ∀ (pre post : List Fact) (period : Fact) (now' : Time) (s' : Statement F),
      processed.Facts = pre ++ post → period.Local = "DocumentPeriodEndDate" →
      ParseXBRL NumericValue now' ⟨pre ++ period :: post, processed.ContextsByID⟩ = .ok s' →
      s'.CompanyProfile.Name = s.CompanyProfile.Name ∧
      s'.CompanyProfile.PrimaryExchange = s.CompanyProfile.PrimaryExchange ∧
      s'.CompanyProfile.PrimaryTicker = s.CompanyProfile.PrimaryTicker ∧
      s'.FormType = s.FormType := by
  constructor
  · intro c hc hblank
    have hdate : resolveEndDate processed.Facts "" = "" := by
      rw [resolveEndDate_eq, hnone]
      rfl
    have hnil : processed.Facts.filter (contextMatched processed "" c) = [] := by
      rw [List.filter_eq_nil_iff]
      intro g hg hm
      have hm' := contextMatched_iff.1 hm
      exact hblank g hg (bears_iff.2 ⟨hm'.1, hm'.2.1⟩) hm'.2.2
    rw [ParseXBRL_mappedField NumericValue hok hc, hdate, hnil]
    rfl
  · intro pre post period now' s' hsplit hl hok'
    obtain ⟨a1, a2, a3, a4⟩ := ParseXBRL_identity NumericValue hok
    obtain ⟨b1, b2, b3, b4⟩ := ParseXBRL_identity NumericValue hok'
    have hskip : ∀ sel : Fact → Bool, sel period = false →
        (pre ++ period :: post).filter sel = processed.Facts.filter sel := by
      intro sel hsel
      rw [hsplit, List.filter_append, List.filter_append, List.filter_cons_of_neg (by simp [hsel])]
    simp only at b1 b2 b3 b4
    rw [hskip _ (by simp [bears, hl])] at b1 b2 b3
    rw [hskip _ (by simp [acceptedSymbol, bears, hl])] at b4
    exact ⟨b1.trans a1.symm, b2.trans a2.symm, b4.trans a4.symm, b3.trans a3.symm⟩

/-- C8, amended, at the sample filing without its period fact: the numeric
fields stay zero and the identity fields are those of the sample filing. -/
theorem missing_period_witness :
    (sampleBeforePeriod ++ sampleAfterPeriod).filter (bears "DocumentPeriodEndDate") = [] ∧
    ParseXBRL wholeNumericValue ⟨1⟩ ⟨sampleBeforePeriod ++ sampleAfterPeriod, sampleContexts⟩ =
      .ok periodlessStatement ∧
    periodlessStatement.BalanceSheet.TotalAssets = 0 ∧
    ParseXBRL wholeNumericValue ⟨1⟩
      ⟨sampleBeforePeriod ++ samplePeriod :: sampleAfterPeriod, sampleContexts⟩ =
        .ok sampleStatement ∧
    sampleStatement.CompanyProfile.Name = periodlessStatement.CompanyProfile.Name ∧
    sampleStatement.CompanyProfile.PrimaryExchange =
      periodlessStatement.CompanyProfile.PrimaryExchange ∧
    sampleStatement.CompanyProfile.PrimaryTicker =
      periodlessStatement.CompanyProfile.PrimaryTicker ∧
    sampleStatement.FormType = periodlessStatement.FormType :=
  ⟨by decide, rfl,
    Option.some.inj ((missing_period wholeNumericValue ⟨1⟩
      ⟨sampleBeforePeriod ++ sampleAfterPeriod, sampleContexts⟩ periodlessStatement
      (by decide) (by rfl)).1 "Assets" (by decide) (by decide)),
    rfl,
    (missing_period wholeNumericValue ⟨1⟩
      ⟨sampleBeforePeriod ++ sampleAfterPeriod, sampleContexts⟩ periodlessStatement
      (by decide) (by rfl)).2 sampleBeforePeriod sampleAfterPeriod samplePeriod ⟨1⟩
      sampleStatement rfl rfl (by rfl)⟩

/-- C9: current-assets fallback. When extraction succeeds, the returned
`CurrentAssets` is exactly the sum of the eight component fields of the returned
statement, added in the order of the source. -/
theorem current_assets_fallback {F : Type} [Float64 F]
    (NumericValue : Fact → Except String F) (now : Time) (processed : XBRL)
    (s : Statement F) (hok : ParseXBRL NumericValue now processed = .ok s) :
    s.BalanceSheet.CurrentAssets =
      s.BalanceSheet.CashAndEquiv + s.BalanceSheet.CurrentLoansReceivable +
        s.BalanceSheet.ReceivablesFromBrokers + s.BalanceSheet.ReceivablesFromCustomers +
        s.BalanceSheet.ReceivablesFromOther +
        s.BalanceSheet.FinancialInstrumentsOwnedAtFairValue +
        s.BalanceSheet.SegregatedCash + s.BalanceSheet.SecuritiesReceivedAsCollateral := by
  obtain ⟨m, hm, rfl⟩ := (ParseXBRL_ok_iff NumericValue).1 hok
  have hu := mapFacts_untouched NumericValue hm
  unfold Untouched at hu
  exact deriveMetrics_currentAssets m (by simp [hu, Statement.init, BalanceSheet.zero])

/-- C9 at the sample filing: 9008 is the sum of cash 7508 and customer
receivables 1500. -/
theorem current_assets_fallback_witness :
    ParseXBRL wholeNumericValue ⟨1⟩ sampleFiling = .ok sampleStatement ∧
    sampleStatement.BalanceSheet.CurrentAssets = 9008 ∧
    sampleStatement.BalanceSheet.CurrentAssets =
      sampleStatement.BalanceSheet.CashAndEquiv +
        sampleStatement.BalanceSheet.CurrentLoansReceivable +
        sampleStatement.BalanceSheet.ReceivablesFromBrokers +
        sampleStatement.BalanceSheet.ReceivablesFromCustomers +
        sampleStatement.BalanceSheet.ReceivablesFromOther +
        sampleStatement.BalanceSheet.FinancialInstrumentsOwnedAtFairValue +
        sampleStatement.BalanceSheet.SegregatedCash +
        sampleStatement.BalanceSheet.SecuritiesReceivedAsCollateral :=
  ⟨rfl, rfl,
    current_assets_fallback wholeNumericValue ⟨1⟩ sampleFiling sampleStatement (by rfl)⟩

/-- C10: working-capital identity. When extraction succeeds, the returned
`WorkingCapital` is exactly `CurrentAssets - CurrentLiabilities` of the returned
statement, whatever values the facts carry. -/
theorem working_capital_identity {F : Type} [Float64 F]
    (NumericValue : Fact → Except String F) (now : Time) (processed : XBRL)
    (s : Statement F) (hok : ParseXBRL NumericValue now processed = .ok s) :
    s.BalanceSheet.WorkingCapital =
      s.BalanceSheet.CurrentAssets - s.BalanceSheet.CurrentLiabilities := by
  obtain ⟨m, -, rfl⟩ := (ParseXBRL_ok_iff NumericValue).1 hok
  exact deriveMetrics_workingCapital m

/-- C10 at the sample filing: 8514 = 9008 - 494. -/
theorem working_capital_identity_witness :
    ParseXBRL wholeNumericValue ⟨1⟩ sampleFiling = .ok sampleStatement ∧
    sampleStatement.BalanceSheet.WorkingCapital = 8514 ∧
    sampleStatement.BalanceSheet.WorkingCapital =
      sampleStatement.BalanceSheet.CurrentAssets -
        sampleStatement.BalanceSheet.CurrentLiabilities :=
  ⟨rfl, rfl,
    working_capital_identity wholeNumericValue ⟨1⟩ sampleFiling sampleStatement (by rfl)⟩

/-- C11: current-liabilities fallback. When extraction succeeds, the returned
`CurrentLiabilities` equals the returned `TotalLiabilities`. -/
theorem current_liabilities_fallback {F : Type} [Float64 F]
    (NumericValue : Fact → Except String F) (now : Time) (processed : XBRL)
    (s : Statement F) (hok : ParseXBRL NumericValue now processed = .ok s) :
    s.BalanceSheet.CurrentLiabilities = s.BalanceSheet.TotalLiabilities := by
  obtain ⟨m, hm, rfl⟩ := (ParseXBRL_ok_iff NumericValue).1 hok
  have hu := mapFacts_untouched NumericValue hm
  unfold Untouched at hu
  exact deriveMetrics_currentLiabilities m (by simp [hu, Statement.init, BalanceSheet.zero])

/-- C11 at the sample filing: both liabilities fields are 494. -/
theorem current_liabilities_fallback_witness :
    ParseXBRL wholeNumericValue ⟨1⟩ sampleFiling = .ok sampleStatement ∧
    sampleStatement.BalanceSheet.TotalLiabilities = 494 ∧
    sampleStatement.BalanceSheet.CurrentLiabilities =
      sampleStatement.BalanceSheet.TotalLiabilities :=
  ⟨rfl, rfl,
    current_liabilities_fallback wholeNumericValue ⟨1⟩ sampleFiling sampleStatement (by rfl)⟩

/-- C12: a fact of one of the ten balance-sheet concepts whose context instant
is present but differs, as a string, from the resolved end date has no effect,
whatever its value: the end date is the same with and without the fact, a call
at the same time gives the same result, and calls at any two times give the same
error or panic, or statements that agree outside `ProcessingDate`. -/
theorem nonmatching_period_skipped {F : Type} [Float64 F]
    (NumericValue : Fact → Except String F) (now now' : Time) (pre post : List Fact)
    (fact : Fact) (contexts : List (String × Context)) (instant : String)
    (hl : fact.Local ∈ balanceSheetConcepts)
    (hi : instantOf ⟨pre ++ fact :: post, contexts⟩ fact = some instant)
    (hne : instant ≠ resolveEndDate (pre ++ fact :: post) "") :
    resolveEndDate (pre ++ fact :: post) "" = resolveEndDate (pre ++ post) "" ∧
    ParseXBRL NumericValue now ⟨pre ++ fact :: post, contexts⟩ =
      ParseXBRL NumericValue now ⟨pre ++ post, contexts⟩ ∧
    (ParseXBRL NumericValue now ⟨pre ++ fact :: post, contexts⟩).withoutProcessingDate =
      (ParseXBRL NumericValue now' ⟨pre ++ post, contexts⟩).withoutProcessingDate := by
  have hperiod : ¬ (fact.IsValid = true ∧ fact.Local = "DocumentPeriodEndDate") :=
    fun h => (balanceSheetConcepts_ne hl).2.2.2.2 h.2
  have hdate : resolveEndDate (pre ++ fact :: post) "" = resolveEndDate (pre ++ post) "" := by
    rw [resolveEndDate_append, resolveEndDate_append]
    simp only [resolveEndDate, if_neg hperiod]
  have hrem := ParseXBRL_remove_at NumericValue now pre post fact contexts hperiod (by
    intro s
    cases hv : fact.IsValid
    · exact mapFact_invalid NumericValue hv
    · obtain ⟨assign, heq, -⟩ := mapFact_numeric NumericValue ⟨pre ++ post, contexts⟩
        (resolveEndDate (pre ++ post) "") s hv hl
      rw [heq]
      rcases assignNumeric_cases NumericValue ⟨pre ++ post, contexts⟩
          (resolveEndDate (pre ++ post) "") s fact assign with
        ⟨hi', _⟩ | ⟨i, _, _, hr⟩ | ⟨v, hi', _, _⟩ | ⟨err, hi', _, _⟩
      · rw [show instantOf ⟨pre ++ post, contexts⟩ fact = some instant from hi] at hi'
        cases hi'
      · exact hr
      · rw [show instantOf ⟨pre ++ post, contexts⟩ fact = some instant from hi,
          ← hdate] at hi'
        exact absurd (Option.some.inj hi') hne
      · rw [show instantOf ⟨pre ++ post, contexts⟩ fact = some instant from hi,
          ← hdate] at hi'
        exact absurd (Option.some.inj hi') hne)
  refine ⟨hrem.1, hrem.2, ?_⟩
  rw [hrem.2]
  exact ParseXBRL_clock NumericValue now now' _

/-- C12 at the sample filing with a non-numeric `Assets` fact of the earlier
instant inserted: the result is the statement of the sample filing. -/
theorem nonmatching_period_skipped_witness :
    staleAssets.Local ∈ balanceSheetConcepts ∧
    instantOf ⟨sampleFiling.Facts.take 7 ++ staleAssets :: sampleFiling.Facts.drop 7,
      sampleContexts⟩ staleAssets = some "2022-11-30" ∧
    "2022-11-30" ≠
      resolveEndDate (sampleFiling.Facts.take 7 ++ staleAssets :: sampleFiling.Facts.drop 7) "" ∧
    wholeNumericValue staleAssets = .error "invalid syntax" ∧
    ParseXBRL wholeNumericValue ⟨1⟩
      ⟨sampleFiling.Facts.take 7 ++ sampleFiling.Facts.drop 7, sampleContexts⟩ =
        .ok sampleStatement ∧
    ParseXBRL wholeNumericValue ⟨1⟩
      ⟨sampleFiling.Facts.take 7 ++ staleAssets :: sampleFiling.Facts.drop 7, sampleContexts⟩ =
        ParseXBRL wholeNumericValue ⟨1⟩
          ⟨sampleFiling.Facts.take 7 ++ sampleFiling.Facts.drop 7, sampleContexts⟩ :=
  ⟨by decide, by decide, by decide, rfl, rfl,
    (nonmatching_period_skipped wholeNumericValue ⟨1⟩ ⟨2⟩ (sampleFiling.Facts.take 7)
      (sampleFiling.Facts.drop 7) staleAssets sampleContexts "2022-11-30" (by decide)
      (by decide) (by decide)).2.1⟩

/-- C13: a fact whose concept name is none of the four identity concepts, the
ten balance-sheet concepts or `DocumentPeriodEndDate` can be inserted at any
position, with any value and any context reference, without changing the
result: a call at the same time gives the same result, and calls at any two
times give the same error or panic, or statements that agree outside
`ProcessingDate`. -/
theorem unrecognized_concept_ignored {F : Type} [Float64 F]
    (NumericValue : Fact → Except String F) (now now' : Time) (pre post : List Fact)
    (fact : Fact) (contexts : List (String × Context))
    (hid : fact.Local ≠ "EntityRegistrantName" ∧ fact.Local ≠ "SecurityExchangeName" ∧
      fact.Local ≠ "TradingSymbol" ∧ fact.Local ≠ "DocumentType")
    (hbs : fact.Local ∉ balanceSheetConcepts)
    (hperiod : fact.Local ≠ "DocumentPeriodEndDate") :
    resolveEndDate (pre ++ fact :: post) "" = resolveEndDate (pre ++ post) "" ∧
    ParseXBRL NumericValue now ⟨pre ++ fact :: post, contexts⟩ =
      ParseXBRL NumericValue now ⟨pre ++ post, contexts⟩ ∧
    (ParseXBRL NumericValue now ⟨pre ++ fact :: post, contexts⟩).withoutProcessingDate =
      (ParseXBRL NumericValue now' ⟨pre ++ post, contexts⟩).withoutProcessingDate := by
  have hrem := ParseXBRL_remove_at NumericValue now pre post fact contexts
    (fun h => hperiod h.2)
    (fun s => mapFact_other NumericValue ⟨hid.1, hid.2.1, hid.2.2.1, hid.2.2.2, hbs⟩)
  refine ⟨hrem.1, hrem.2, ?_⟩
  rw [hrem.2]
  exact ParseXBRL_clock NumericValue now now' _

/-- C13 at the sample filing with a `NetIncomeLoss` fact inserted after the
third fact: the result is the statement of the sample filing. -/
theorem unrecognized_concept_ignored_witness :
    (unknownFact.Local ≠ "EntityRegistrantName" ∧ unknownFact.Local ≠ "SecurityExchangeName" ∧
      unknownFact.Local ≠ "TradingSymbol" ∧ unknownFact.Local ≠ "DocumentType") ∧
    unknownFact.Local ∉ balanceSheetConcepts ∧
    unknownFact.Local ≠ "DocumentPeriodEndDate" ∧
    ParseXBRL wholeNumericValue ⟨1⟩
      ⟨sampleFiling.Facts.take 3 ++ sampleFiling.Facts.drop 3, sampleContexts⟩ =
        .ok sampleStatement ∧
    ParseXBRL wholeNumericValue ⟨1⟩
      ⟨sampleFiling.Facts.take 3 ++ unknownFact :: sampleFiling.Facts.drop 3, sampleContexts⟩ =
        ParseXBRL wholeNumericValue ⟨1⟩
          ⟨sampleFiling.Facts.take 3 ++ sampleFiling.Facts.drop 3, sampleContexts⟩ :=
  ⟨by decide, by decide, by decide, rfl,
    (unrecognized_concept_ignored wholeNumericValue ⟨1⟩ ⟨2⟩ (sampleFiling.Facts.take 3)
      (sampleFiling.Facts.drop 3) unknownFact sampleContexts (by decide) (by decide)
      (by decide)).2.1⟩

/-- C14: invalid facts are skipped entirely. The resolved end date and the
result of the call are those of the subsequence of valid facts (for calls at
different times, up to `ProcessingDate`), and removing a fact whose validity
flag is false changes neither, whatever its concept, value and context. -/
theorem invalid_facts_skipped {F : Type} [Float64 F]
    (NumericValue : Fact → Except String F) (now now' : Time) (processed : XBRL) :
    resolveEndDate processed.Facts "" =
      resolveEndDate (processed.Facts.filter Fact.IsValid) "" ∧
    ParseXBRL NumericValue now processed =
      ParseXBRL NumericValue now
        ⟨processed.Facts.filter Fact.IsValid, processed.ContextsByID⟩ ∧
    (ParseXBRL NumericValue now processed).withoutProcessingDate =
      (ParseXBRL NumericValue now'
        ⟨processed.Facts.filter Fact.IsValid, processed.ContextsByID⟩).withoutProcessingDate ∧
    ∀ (pre post : List Fact) (fact : Fact), processed.Facts = pre ++ fact :: post →
      fact.IsValid = false →
      resolveEndDate processed.Facts "" = resolveEndDate (pre ++ post) "" ∧
      ParseXBRL NumericValue now processed =
        ParseXBRL NumericValue now ⟨pre ++ post, processed.ContextsByID⟩ := by
  obtain ⟨facts, contexts⟩ := processed
  have hrun : ParseXBRL NumericValue now ⟨facts, contexts⟩ =
      ParseXBRL NumericValue now ⟨facts.filter Fact.IsValid, contexts⟩ := by
    simp only [ParseXBRL, resolveEndDate_filter_valid, mapFacts_filter_valid]
    rw [mapFacts_contexts NumericValue facts (facts.filter Fact.IsValid)]
  refine ⟨(resolveEndDate_filter_valid facts "").symm, hrun, ?_, ?_⟩
  · rw [hrun]
    exact ParseXBRL_clock NumericValue now now' _
  · intro pre post fact hsplit hv
    simp only at hsplit
    subst hsplit
    exact ParseXBRL_remove_at NumericValue now pre post fact contexts
      (fun h => by rw [hv] at h; exact absurd h.1 (by decide))
      (fun s => mapFact_invalid NumericValue hv)

/-- C14 at the sample filing padded with an invalid `Assets` fact and an invalid
period fact: the valid facts are those of the sample filing and the result is
its statement. -/
theorem invalid_facts_skipped_witness :
    paddedFacts.filter Fact.IsValid = sampleFiling.Facts ∧
    ParseXBRL wholeNumericValue ⟨1⟩ ⟨paddedFacts, sampleContexts⟩ = .ok sampleStatement ∧
    ParseXBRL wholeNumericValue ⟨1⟩ ⟨paddedFacts, sampleContexts⟩ =
      ParseXBRL wholeNumericValue ⟨1⟩ ⟨paddedFacts.filter Fact.IsValid, sampleContexts⟩ ∧
    voidAssets.IsValid = false ∧
    ParseXBRL wholeNumericValue ⟨1⟩ ⟨paddedFacts, sampleContexts⟩ =
      ParseXBRL wholeNumericValue ⟨1⟩ ⟨[] ++ (sampleFiling.Facts ++ [voidPeriod]),
        sampleContexts⟩ :=
  ⟨by decide, rfl,
    (invalid_facts_skipped wholeNumericValue ⟨1⟩ ⟨2⟩ ⟨paddedFacts, sampleContexts⟩).2.1,
    rfl,
    ((invalid_facts_skipped wholeNumericValue ⟨1⟩ ⟨2⟩ ⟨paddedFacts, sampleContexts⟩).2.2.2
      [] (sampleFiling.Facts ++ [voidPeriod]) voidAssets rfl rfl).2⟩

/-- C15 as stated fails: a `TradingSymbol` value with a tab and no space is
accepted, so the returned ticker contains a whitespace character. -/
theorem ticker_whitespace_counterexample :
    ParseXBRL wholeNumericValue ⟨1⟩ ⟨tabbedSymbolFacts, sampleContexts⟩ = .ok tabbedStatement ∧
    tabbedStatement.CompanyProfile.PrimaryTicker = "JEF\tA" ∧
    containsWhitespace tabbedStatement.CompanyProfile.PrimaryTicker = true :=
  ⟨rfl, rfl, by decide⟩

/-- C15, amended: the only character tested is the space. When extraction
succeeds the returned `PrimaryTicker` contains no space and, unless it is empty,
is the value of a valid `TradingSymbol` fact of the sequence; and at a valid
`TradingSymbol` fact with the ticker still unset, an iteration stores the value
exactly when it contains no space, whatever other characters it has. -/
theorem ticker_space_only {F : Type} [Float64 F]
    (NumericValue : Fact → Except String F) (now : Time) (processed : XBRL)
    (s : Statement F) (hok : ParseXBRL NumericValue now processed = .ok s) :
    containsSpace s.CompanyProfile.PrimaryTicker = false ∧
    (s.CompanyProfile.PrimaryTicker ≠ "" →
      ∃ fact ∈ processed.Facts, fact.IsValid = true ∧ fact.Local = "TradingSymbol" ∧
        containsSpace fact.ValueStr = false ∧
        s.CompanyProfile.PrimaryTicker = fact.ValueStr) ∧
    ∀ (endDate : String) (t : Statement F) (fact : Fact), fact.IsValid = true →
      fact.Local = "TradingSymbol" → t.CompanyProfile.PrimaryTicker = "" →
      mapFact NumericValue processed endDate t fact =
        .ok (if containsSpace fact.ValueStr = false then
          { t with CompanyProfile := { t.CompanyProfile with PrimaryTicker := fact.ValueStr } }
          else t) := by
  have h := (ParseXBRL_identity NumericValue hok).2.2.2
  have hhead : ∀ g gs, processed.Facts.filter acceptedSymbol = g :: gs →
      g ∈ processed.Facts ∧ g.IsValid = true ∧ g.Local = "TradingSymbol" ∧
        containsSpace g.ValueStr = false ∧ s.CompanyProfile.PrimaryTicker = g.ValueStr := by
    intro g gs hf
    have hg : g ∈ processed.Facts.filter acceptedSymbol := by
      rw [hf]
      exact List.mem_cons_self _ _
    obtain ⟨hmem, hacc⟩ := List.mem_filter.1 hg
    simp only [acceptedSymbol, Bool.and_eq_true, Bool.not_eq_true'] at hacc
    obtain ⟨hv, hl⟩ := bears_iff.1 hacc.1.1
    refine ⟨hmem, hv, hl, hacc.1.2, ?_⟩
    rw [h, hf]
    rfl
  refine ⟨?_, ?_, ?_⟩
  · cases hf : processed.Facts.filter acceptedSymbol with
    | nil =>
      rw [h, hf]
      decide
    | cons g gs =>
      obtain ⟨-, -, -, hsp, heq⟩ := hhead g gs hf
      rw [heq]
      exact hsp
  · intro hne
    cases hf : processed.Facts.filter acceptedSymbol with
    | nil =>
      rw [h, hf] at hne
      exact absurd rfl hne
    | cons g gs =>
      obtain ⟨hmem, hv, hl, hsp, heq⟩ := hhead g gs hf
      exact ⟨g, hmem, hv, hl, hsp, heq⟩
  · intro endDate t fact hv hl ht
    rw [mapFact_TradingSymbol NumericValue hv hl]
    by_cases hsp : containsSpace fact.ValueStr = false
    · rw [if_pos ⟨hsp, ht⟩, if_pos hsp]
    · rw [if_neg (fun hh => hsp hh.1), if_neg hsp]

/-- C15, amended, at the tabbed symbol: the ticker has no space, it is the value
of the fact, and it has a whitespace character. -/
theorem ticker_space_only_witness :
    ParseXBRL wholeNumericValue ⟨1⟩ ⟨tabbedSymbolFacts, sampleContexts⟩ = .ok tabbedStatement ∧
    containsSpace tabbedStatement.CompanyProfile.PrimaryTicker = false ∧
    containsWhitespace tabbedStatement.CompanyProfile.PrimaryTicker = true :=
  ⟨rfl,
    (ticker_space_only wholeNumericValue ⟨1⟩ ⟨tabbedSymbolFacts, sampleContexts⟩
      tabbedStatement (by rfl)).1,
    by decide⟩

/-- C16: no other failure mode. When every valid balance-sheet fact references
a context with an instant, the call does not panic; an error it returns is the
conversion error of a valid balance-sheet fact whose context instant equals the
resolved end date; and when every such context-matched fact parses, the call
returns a statement. -/
theorem no_other_failure_mode {F : Type} [Float64 F]
    (NumericValue : Fact → Except String F) (now : Time) (processed : XBRL)
    (hinst : ∀ g ∈ processed.Facts, g.IsValid = true → g.Local ∈ balanceSheetConcepts →
      instantOf processed g ≠ none) :
    ParseXBRL NumericValue now processed ≠ .panic ∧
    (∀ err, ParseXBRL NumericValue now processed = .error err →
      ∃ fact ∈ processed.Facts, fact.IsValid = true ∧ fact.Local ∈ balanceSheetConcepts ∧
        instantOf processed fact = some (resolveEndDate processed.Facts "") ∧
        NumericValue fact = .error err) ∧
    ((∀ fact ∈ processed.Facts, fact.IsValid = true → fact.Local ∈ balanceSheetConcepts →
        instantOf processed fact = some (resolveEndDate processed.Facts "") →
        ∃ v, NumericValue fact = .ok v) →
      ∃ s, ParseXBRL NumericValue now processed = .ok s) := by
  simp only [ParseXBRL]
  cases hm : mapFacts NumericValue processed (resolveEndDate processed.Facts "")
      processed.Facts (Statement.init F now) with
  | ok m =>
    exact ⟨fun h => (nomatch h), fun err h => (nomatch h), fun _ => ⟨_, rfl⟩⟩
  | error e =>
    obtain ⟨g, hg, hgv, hgl, hgi, hge⟩ := mapFacts_error NumericValue hm
    refine ⟨fun h => (nomatch h), fun err h => ?_, fun hall => ?_⟩
    · cases h
      exact ⟨g, hg, hgv, hgl, hgi, hge⟩
    · obtain ⟨v, hv⟩ := hall g hg hgv hgl hgi
      rw [hge] at hv
      cases hv
  | panic =>
    obtain ⟨g, hg, hgv, hgl, hgi⟩ := mapFacts_panic NumericValue hm
    exact absurd hgi (hinst g hg hgv hgl)

/-- C16 at the filing whose matched `Assets` value is `n/a`: the error returned
is the parse error of that fact. -/
theorem no_other_failure_mode_witness :
    (∀ g ∈ unparsableFiling.Facts, g.IsValid = true → g.Local ∈ balanceSheetConcepts →
      instantOf unparsableFiling g ≠ none) ∧
    ParseXBRL wholeNumericValue ⟨1⟩ unparsableFiling = .error "invalid syntax" ∧
    ∃ fact ∈ unparsableFiling.Facts, fact.IsValid = true ∧
      fact.Local ∈ balanceSheetConcepts ∧
      instantOf unparsableFiling fact = some (resolveEndDate unparsableFiling.Facts "") ∧
      wholeNumericValue fact = .error "invalid syntax" :=
  ⟨by decide, rfl,
    (no_other_failure_mode wholeNumericValue ⟨1⟩ unparsableFiling (by decide)).2.1
      "invalid syntax" (by rfl)⟩

/-- C17: numeric fields are last-match-wins. When extraction succeeds, the
field mapped to each of the ten concepts is the parsed value of the last valid
fact of the concept, in sequence order, whose context instant equals the
resolved end date, and it is zero when there is no such fact. -/
theorem numeric_last_match_wins {F : Type} [Float64 F]
    (NumericValue : Fact → Except String F) (now : Time) (processed : XBRL)
    (s : Statement F) (concept : String)
    (hok : ParseXBRL NumericValue now processed = .ok s)
    (hc : concept ∈ balanceSheetConcepts) :
    (processed.Facts.filter
        (contextMatched processed (resolveEndDate processed.Facts "") concept) = [] →
      mappedField concept s.BalanceSheet = some 0) ∧
    ∀ fact, (processed.Facts.filter
        (contextMatched processed (resolveEndDate processed.Facts "") concept)).getLast? =
          some fact →
      ∃ x, NumericValue fact = .ok x ∧ mappedField concept s.BalanceSheet = some x := by
  have h := ParseXBRL_mappedField NumericValue hok hc
  constructor
  · intro hnil
    rw [h, hnil]
    rfl
  · intro fact hlast
    rw [hlast] at h
    obtain ⟨y, hy⟩ := mappedField_isSome hc s.BalanceSheet
    cases hn : NumericValue fact with
    | ok x =>
      refine ⟨x, rfl, ?_⟩
      rw [h]
      simp [hn, Except.toOption]
    | error e =>
      rw [hy] at h
      simp [hn, Except.toOption] at h

/-- C17 at a filing with two matched `Assets` facts: `TotalAssets` is the value
of the second. -/
theorem numeric_last_match_wins_witness :
    ParseXBRL wholeNumericValue ⟨1⟩ repeatedAssetsFiling = .ok repeatedAssetsStatement ∧
    "Assets" ∈ balanceSheetConcepts ∧
    repeatedAssetsFiling.Facts.filter
      (contextMatched repeatedAssetsFiling (resolveEndDate repeatedAssetsFiling.Facts "")
        "Assets") = [sampleAssets, laterAssets] ∧
    ∃ x, wholeNumericValue laterAssets = .ok x ∧
      mappedField "Assets" repeatedAssetsStatement.BalanceSheet = some x :=
  ⟨rfl, by decide, by decide,
    (numeric_last_match_wins wholeNumericValue ⟨1⟩ repeatedAssetsFiling
      repeatedAssetsStatement "Assets" (by rfl) (by decide)).2 laterAssets (by decide)⟩

/-- C18: untouched fields stay at their defaults. When extraction succeeds,
`FilingDate` and `CalendarDate` are the zero time, every `IncomeStatement` and
`CashFlow` field is zero, `CIK`, `CUSIPs` and the three FIGI fields are empty,
and every `BalanceSheet` field other than the ten mapped ones, `CurrentAssets`,
`CurrentLiabilities` and `WorkingCapital` is zero. -/
theorem untouched_fields_default {F : Type} [Float64 F]
    (NumericValue : Fact → Except String F) (now : Time) (processed : XBRL)
    (s : Statement F) (hok : ParseXBRL NumericValue now processed = .ok s) :
    s.FilingDate = Time.zero ∧ s.CalendarDate = Time.zero ∧
    s.IncomeStatement = IncomeStatement.zero F ∧ s.CashFlow = CashFlow.zero F ∧
    s.CompanyProfile.CIK = "" ∧ s.CompanyProfile.CUSIPs = [] ∧
    s.CompanyProfile.FIGI = "" ∧ s.CompanyProfile.CompositeFIGI = "" ∧
    s.CompanyProfile.ShareClassFIGI = "" ∧
    s.BalanceSheet.TotalInvestments = 0 ∧
    s.BalanceSheet.CurrentInvestments = 0 ∧
    s.BalanceSheet.NonCurrentInvestments = 0 ∧
    s.BalanceSheet.NonCurrentAssets = 0 ∧
    s.BalanceSheet.NonCurrentLiabilities = 0 ∧
    s.BalanceSheet.TotalDebt = 0 ∧
    s.BalanceSheet.CurrentDebt = 0 ∧
    s.BalanceSheet.NonCurrentDebt = 0 ∧
    s.BalanceSheet.DeferredRevenue = 0 ∧
    s.BalanceSheet.TotalDeposits = 0 ∧
    s.BalanceSheet.NetPropertyPlantAndEquip = 0 ∧
    s.BalanceSheet.InventoryShortTerm = 0 ∧
    s.BalanceSheet.TaxAssets = 0 ∧
    s.BalanceSheet.TaxLiabilities = 0 ∧
    s.BalanceSheet.TotalReceivables = 0 ∧
    s.BalanceSheet.TotalPayables = 0 ∧
    s.BalanceSheet.Intangibles = 0 ∧
    s.BalanceSheet.Equity = 0 ∧
    s.BalanceSheet.RetainedEarnings = 0 ∧
    s.BalanceSheet.AccumulatedOtherComprehensiveIncome = 0 := by
  obtain ⟨m, hm, rfl⟩ := (ParseXBRL_ok_iff NumericValue).1 hok
  have hu := mapFacts_untouched NumericValue hm
  have hr := deriveMetrics_rest m
  have hp := (deriveMetrics_frame m).2.1
  unfold Untouched at hu
  simp only [hr, hp, hu, Statement.init, CompanyProfile.zero, BalanceSheet.zero, and_self]

/-- C18 at the sample filing: the fields that no fact of the filing reaches are
at their zero values. -/
theorem untouched_fields_default_witness :
    ParseXBRL wholeNumericValue ⟨1⟩ sampleFiling = .ok sampleStatement ∧
    sampleStatement.FilingDate = Time.zero ∧ sampleStatement.CalendarDate = Time.zero ∧
    sampleStatement.IncomeStatement = IncomeStatement.zero Int ∧
    sampleStatement.CashFlow = CashFlow.zero Int ∧
    sampleStatement.CompanyProfile.CIK = "" ∧ sampleStatement.CompanyProfile.CUSIPs = [] ∧
    sampleStatement.CompanyProfile.FIGI = "" ∧
    sampleStatement.CompanyProfile.CompositeFIGI = "" ∧
    sampleStatement.CompanyProfile.ShareClassFIGI = "" ∧
    sampleStatement.BalanceSheet.TotalInvestments = 0 ∧
    sampleStatement.BalanceSheet.CurrentInvestments = 0 ∧
    sampleStatement.BalanceSheet.NonCurrentInvestments = 0 ∧
    sampleStatement.BalanceSheet.NonCurrentAssets = 0 ∧
    sampleStatement.BalanceSheet.NonCurrentLiabilities = 0 ∧
    sampleStatement.BalanceSheet.TotalDebt = 0 ∧
    sampleStatement.BalanceSheet.CurrentDebt = 0 ∧
    sampleStatement.BalanceSheet.NonCurrentDebt = 0 ∧
    sampleStatement.BalanceSheet.DeferredRevenue = 0 ∧
    sampleStatement.BalanceSheet.TotalDeposits = 0 ∧
    sampleStatement.BalanceSheet.NetPropertyPlantAndEquip = 0 ∧
    sampleStatement.BalanceSheet.InventoryShortTerm = 0 ∧
    sampleStatement.BalanceSheet.TaxAssets = 0 ∧
    sampleStatement.BalanceSheet.TaxLiabilities = 0 ∧
    sampleStatement.BalanceSheet.TotalReceivables = 0 ∧
    sampleStatement.BalanceSheet.TotalPayables = 0 ∧
    sampleStatement.BalanceSheet.Intangibles = 0 ∧
    sampleStatement.BalanceSheet.Equity = 0 ∧
    sampleStatement.BalanceSheet.RetainedEarnings = 0 ∧
    sampleStatement.BalanceSheet.AccumulatedOtherComprehensiveIncome = 0 :=
  ⟨rfl, untouched_fields_default wholeNumericValue ⟨1⟩ sampleFiling sampleStatement (by rfl)⟩

end Edgar
